import Mathlib

/-!
# Transit gateway resource: Create / Read / Update / Delete

A shallow embedding of `aviatrix/resource_aviatrix_transit_gateway.go`.

* The resource data `d` is a record of the schema's attributes together with the
  resource id and the previously applied attributes (what `d.HasChange` and
  `d.GetChange` compare against).
* The controller client is a record of answer functions, one per client method
  the resource uses.  Every call the resource issues is appended to a call log,
  so that the order, number and payload of remote calls can be stated.
* A Go function returning `error` returns `Option String` here: `none` is `nil`,
  `some msg` is an error whose text is `msg`.
-/

namespace Aviatrix

/-! ## Data model -/

/-- Attributes of the resource schema (`Schema: map[string]*schema.Schema`). -/
structure Config where
  cloud_type : Int := 0
  account_name : String := ""
  gw_name : String := ""
  vpc_id : String := ""
  vpc_reg : String := ""
  gw_size : String := ""
  subnet : String := ""
  insane_mode_az : String := ""
  allocate_new_eip : Bool := true
  eip : String := ""
  ha_subnet : String := ""
  ha_insane_mode_az : String := ""
  ha_gw_size : String := ""
  ha_eip : String := ""
  enable_snat : Bool := false
  tag_list : List String := []
  enable_hybrid_connection : Bool := false
  connected_transit : Bool := false
  insane_mode : Bool := false
  enable_firenet_interfaces : Bool := false
deriving DecidableEq, Repr

/-- The `*schema.ResourceData` handed to each operation: the resource id, the
attributes as `d.Get` sees them (`cfg`), and the previously applied attributes
(`prior`), which `d.HasChange` / `d.GetChange` compare with `cfg`. -/
structure ResourceData where
  id : String := ""
  cfg : Config := {}
  prior : Config := {}
deriving DecidableEq, Repr

/-- Fields of `goaviatrix.TransitVpc` that this resource fills in. The type is
declared in the `goaviatrix` package; unset fields hold Go's zero values. -/
structure TransitVpc where
  CloudType : Int := 0
  AccountName : String := ""
  GwName : String := ""
  VpcID : String := ""
  VNetNameResourceGroup : String := ""
  VpcRegion : String := ""
  VpcSize : String := ""
  Subnet : String := ""
  HASubnet : String := ""
  EnableNAT : String := ""
  ConnectedTransit : String := ""
  ReuseEip : String := ""
  Eip : String := ""
  InsaneMode : String := ""
  TagList : String := ""
  EnableHybridConnection : Bool := false
deriving DecidableEq, Repr

/-- Fields of `goaviatrix.Gateway` that this resource fills in or reads. -/
structure Gateway where
  CloudType : Int := 0
  AccountName : String := ""
  GwName : String := ""
  GwSize : String := ""
  VpcNet : String := ""
  VpcID : String := ""
  VpcRegion : String := ""
  PublicIP : String := ""
  AllocateNewEipRead : Bool := false
  EnableNat : String := ""
  EnableHybridConnection : Bool := false
  ConnectedTransit : String := ""
  InsaneMode : String := ""
  GatewayZone : String := ""
deriving DecidableEq, Repr

/-- The field of `goaviatrix.GatewayDetail` that Read uses. -/
structure GatewayDetail where
  DMZEnabled : Bool := false
deriving DecidableEq, Repr

/-- Fields of `goaviatrix.Tags`. -/
structure Tags where
  CloudType : Int := 0
  ResourceType : String := ""
  ResourceName : String := ""
  TagList : String := ""
deriving DecidableEq, Repr

/-- A Go `error` coming back from the client: the distinguished
`goaviatrix.ErrNotFound` value (compared with `==` in the source) or any other
error, carried with its text. -/
inductive GoError where
  | ErrNotFound
  | other (msg : String)
deriving DecidableEq, Repr

/-- Text of an error, as `%s` / `%v` print it. `ErrNotFound` is declared in the
`goaviatrix` package; its text is taken to be its name. -/
def GoError.Error : GoError → String
  | .ErrNotFound => "ErrNotFound"
  | .other msg => msg

/-- What `fmt.Errorf("...%s", err)` prints for `err`: the error text, or
`%!s(<nil>)` when the value is `nil`. -/
def fmtErr : Option GoError → String
  | some e => e.Error
  | none => "%!s(<nil>)"

/-- The client methods the resource calls (`client := meta.(*goaviatrix.Client)`).
Methods returning only `error` answer `none` on success. -/
structure Client where
  LaunchTransitVpc : TransitVpc → Option GoError
  EnableHaTransitVpc : TransitVpc → Option GoError
  UpdateGateway : Gateway → Option GoError
  DeleteGateway : Gateway → Option GoError
  GetGateway : Gateway → Except GoError Gateway
  GetGatewayDetail : Gateway → Except GoError GatewayDetail
  GetTags : Tags → Except GoError (List String)
  AddTags : Tags → Option GoError
  DeleteTags : Tags → Option GoError
  AttachTransitGWForHybrid : TransitVpc → Option GoError
  DetachTransitGWForHybrid : TransitVpc → Option GoError
  EnableConnectedTransit : TransitVpc → Option GoError
  DisableConnectedTransit : TransitVpc → Option GoError
  EnableSNat : Gateway → Option GoError
  DisableSNat : Gateway → Option GoError
  EnableGatewayFireNetInterfaces : TransitVpc → Option GoError
  DisableGatewayFireNetInterfaces : TransitVpc → Option GoError

/-- One remote call with the request it was given. -/
inductive Call where
  | LaunchTransitVpc (g : TransitVpc)
  | EnableHaTransitVpc (g : TransitVpc)
  | UpdateGateway (g : Gateway)
  | DeleteGateway (g : Gateway)
  | GetGateway (g : Gateway)
  | GetGatewayDetail (g : Gateway)
  | GetTags (t : Tags)
  | AddTags (t : Tags)
  | DeleteTags (t : Tags)
  | AttachTransitGWForHybrid (g : TransitVpc)
  | DetachTransitGWForHybrid (g : TransitVpc)
  | EnableConnectedTransit (g : TransitVpc)
  | DisableConnectedTransit (g : TransitVpc)
  | EnableSNat (g : Gateway)
  | DisableSNat (g : Gateway)
  | EnableGatewayFireNetInterfaces (g : TransitVpc)
  | DisableGatewayFireNetInterfaces (g : TransitVpc)
deriving DecidableEq, Repr

/-- The error (if any) with which the client answers a call. -/
def Client.answer (c : Client) : Call → Option GoError
  | .LaunchTransitVpc g => c.LaunchTransitVpc g
  | .EnableHaTransitVpc g => c.EnableHaTransitVpc g
  | .UpdateGateway g => c.UpdateGateway g
  | .DeleteGateway g => c.DeleteGateway g
  | .GetGateway g => match c.GetGateway g with | .ok _ => none | .error e => some e
  | .GetGatewayDetail g => match c.GetGatewayDetail g with | .ok _ => none | .error e => some e
  | .GetTags t => match c.GetTags t with | .ok _ => none | .error e => some e
  | .AddTags t => c.AddTags t
  | .DeleteTags t => c.DeleteTags t
  | .AttachTransitGWForHybrid g => c.AttachTransitGWForHybrid g
  | .DetachTransitGWForHybrid g => c.DetachTransitGWForHybrid g
  | .EnableConnectedTransit g => c.EnableConnectedTransit g
  | .DisableConnectedTransit g => c.DisableConnectedTransit g
  | .EnableSNat g => c.EnableSNat g
  | .DisableSNat g => c.DisableSNat g
  | .EnableGatewayFireNetInterfaces g => c.EnableGatewayFireNetInterfaces g
  | .DisableGatewayFireNetInterfaces g => c.DisableGatewayFireNetInterfaces g

/-- What an operation has done so far: the resource data, the remote calls issued
(oldest first) and the number of times `resourceAviatrixTransitGatewayRead` was
entered. -/
structure World where
  d : ResourceData
  calls : List Call := []
  reads : Nat := 0
deriving DecidableEq, Repr

/-- Record a remote call. -/
def World.log (w : World) (c : Call) : World :=
  { w with calls := w.calls ++ [c] }

/-- The effect of `d.Set` / `d.SetId`: replace the resource data. -/
def World.setD (w : World) (d : ResourceData) : World :=
  { w with d := d }

/-- How a block of statements ends: control falls through to the next statement
(`next`) or the function returns (`ret e`, with `e` the returned error). -/
inductive Flow where
  | next
  | ret (e : Option String)
deriving DecidableEq, Repr

/-- A block of statements of an operation. -/
abbrev Block := World → World × Flow

/-- Sequencing: run `s`; unless it returned, run `t`. -/
def Block.andThen (s t : Block) : Block := fun w =>
  match s w with
  | (w1, .next) => t w1
  | (w1, .ret e) => (w1, .ret e)

/-- A call to a client method that returns only `error`: log it; on an error
return `wrap err`, otherwise fall through. -/
def callOrFail (c : Call) (r : Option GoError) (wrap : GoError → String) : Block := fun w =>
  match r with
  | none => (w.log c, .next)
  | some e => (w.log c, .ret (some (wrap e)))

/-! ## Helpers of the `goaviatrix` package and of Go's `strings` -/

/-- `strings.Join([]string{a, b}, "~~")`. -/
def joinTilde (a b : String) : String := a ++ "~~" ++ b

/-- The characters before the first occurrence of `~~` (all of them when there is none). -/
def beforeTilde : List Char → List Char
  | [] => []
  | [c] => [c]
  | c₁ :: c₂ :: cs => if c₁ = '~' ∧ c₂ = '~' then [] else c₁ :: beforeTilde (c₂ :: cs)

/-- `strings.Split(s, "~~")[0]`. -/
def splitTildeFirst (s : String) : String := String.mk (beforeTilde s.data)

/-- `strings.Join(l, ",")`. -/
def joinComma (l : List String) : String := ",".intercalate l

/-- Modelled from the spec: `goaviatrix.ExpandStringList` is not among the sources.
It turns the `[]interface{}` value of a list attribute into a `[]string`; the spec
treats the declared tag list as a list of strings, so the conversion keeps the list
as it is. -/
def ExpandStringList (l : List String) : List String := l

/-- Modelled from the spec: `goaviatrix.Difference` is not among the sources. The
spec describes the two calls `Difference(old, new)` and `Difference(new, old)` as
the removed and the added tags, the two halves of the symmetric difference:
`Difference a b` keeps, in order, the elements of `a` that are not in `b`. -/
def Difference (a b : List String) : List String := a.filter (fun x => !b.contains x)

/-! ## Read -/

/-- Lines 383–429 of Read: the attributes set from the primary gateway `gw`. -/
def readGatewayFields (cfg : Config) (gw : Gateway) : Config :=
  let cfg := { cfg with cloud_type := gw.CloudType, account_name := gw.AccountName,
                        gw_name := gw.GwName, subnet := gw.VpcNet }
  let cfg :=
    if gw.CloudType = 1 then
      { cfg with vpc_id := splitTildeFirst gw.VpcID,
                 allocate_new_eip := if gw.AllocateNewEipRead then true else false }
    else if gw.CloudType = 8 then
      { cfg with vpc_id := gw.VpcID, allocate_new_eip := true }
    else cfg
  let cfg := { cfg with eip := gw.PublicIP, vpc_reg := gw.VpcRegion, gw_size := gw.GwSize }
  let cfg := { cfg with enable_snat := if gw.EnableNat = "yes" then true else false }
  let cfg := { cfg with enable_hybrid_connection :=
                          if gw.CloudType = 1 then gw.EnableHybridConnection else false }
  let cfg := { cfg with connected_transit := if gw.ConnectedTransit = "yes" then true else false }
  if gw.InsaneMode = "yes" then
    { cfg with insane_mode := true, insane_mode_az := gw.GatewayZone }
  else
    { cfg with insane_mode := false, insane_mode_az := "" }

/-- Lines 439–465 of Read: for cloud type 1, fetch the tags and reconcile `tag_list`.
`gateway` is the request built at line 366 (its name goes into the error text). -/
def readTags (client : Client) (gw : Gateway) (gateway : Gateway) : Block := fun w =>
  if gw.CloudType = 1 then
    let tags : Tags := { CloudType := 1, ResourceType := "gw", ResourceName := w.d.cfg.gw_name }
    let w := w.log (.GetTags tags)
    match client.GetTags tags with
    | .error err =>
      (w, .ret (some ("unable to read tag_list for gateway: " ++ gateway.GwName ++ " due to "
                        ++ err.Error)))
    | .ok tagList =>
      let tagListStr : List String :=
        if w.d.cfg.tag_list ≠ [] then ExpandStringList w.d.cfg.tag_list else []
      if (Difference tagListStr tagList).length ≠ 0 ∨ (Difference tagList tagListStr).length ≠ 0 then
        (w.setD { w.d with cfg := { w.d.cfg with tag_list := tagList } }, .next)
      else
        (w.setD { w.d with cfg := { w.d.cfg with tag_list := tagListStr } }, .next)
  else (w, .next)

/-- Lines 467–493 of Read: look the HA gateway up and set the HA attributes. -/
def readHa (client : Client) : Block := fun w =>
  let haGateway : Gateway :=
    { AccountName := w.d.cfg.account_name, GwName := w.d.cfg.gw_name ++ "-hagw" }
  let w := w.log (.GetGateway haGateway)
  match client.GetGateway haGateway with
  | .error err =>
    if err = GoError.ErrNotFound then
      (w.setD { w.d with cfg := { w.d.cfg with ha_gw_size := "", ha_subnet := "",
                                               ha_insane_mode_az := "", ha_eip := "" } },
       .ret none)
    else
      (w, .ret (some ("couldn't find Aviatrix Transit HA Gateway: " ++ err.Error)))
  | .ok haGw =>
    let cfg := { w.d.cfg with ha_eip := haGw.PublicIP, ha_subnet := haGw.VpcNet,
                              ha_gw_size := haGw.GwSize }
    let cfg :=
      if haGw.InsaneMode = "yes" then { cfg with ha_insane_mode_az := haGw.GatewayZone }
      else { cfg with ha_insane_mode_az := "" }
    (w.setD { w.d with cfg := cfg }, .ret none)

/-- Lines 366–437 of Read: fetch the primary gateway, then its detail. The client
answers `GetGateway` with an error or with a gateway, so the test `gw != nil` of
line 382 holds whenever it is reached. -/
def readPrimary (client : Client) (gateway : Gateway) : Block := fun w =>
  let w := w.log (.GetGateway gateway)
  match client.GetGateway gateway with
  | .error err =>
    if err = GoError.ErrNotFound then
      (w.setD { w.d with id := "" }, .ret none)
    else
      (w, .ret (some ("couldn't find Aviatrix Transit Gateway: " ++ err.Error)))
  | .ok gw =>
    let w := w.setD { w.d with cfg := readGatewayFields w.d.cfg gw }
    let w := w.log (.GetGatewayDetail gw)
    match client.GetGatewayDetail gw with
    | .error err => (w, .ret (some ("couldn't get Aviatrix Transit Gateway: " ++ err.Error)))
    | .ok gwDetail =>
      let w := w.setD { w.d with cfg := { w.d.cfg with
                                            enable_firenet_interfaces := gwDetail.DMZEnabled } }
      readTags client gw gateway w

/-- Lines 358–364 of Read: when no gateway name is set (import), the id is the name. -/
def readImportName (d : ResourceData) : ResourceData :=
  if d.cfg.gw_name = "" then { d with cfg := { d.cfg with gw_name := d.id }, id := d.id } else d

/-- `resourceAviatrixTransitGatewayRead`. -/
def Read (client : Client) (w : World) : World × Option String :=
  let w := { w with reads := w.reads + 1 }
  let w := w.setD (readImportName w.d)
  let gateway : Gateway := { AccountName := w.d.cfg.account_name, GwName := w.d.cfg.gw_name }
  match ((readPrimary client gateway).andThen (readHa client)) w with
  | (w, .next) => (w, none)
  | (w, .ret e) => (w, e)

/-- `resourceAviatrixTransitGatewayReadIfRequired`: `flag` is the value of `*flag`
on entry; the result carries its value on exit. -/
def ReadIfRequired (client : Client) (w : World) (flag : Bool) : World × Bool × Option String :=
  if !flag then
    let r := Read client w
    (r.1, true, r.2)
  else (w, flag, none)

/-! ## Create

`d.Set` is not called in Create before the final Read, so the locals read at the top
of the function (`cloudType`, `insaneMode`, `haSubnet`, `haGwSize`, ...) and the later
`d.Get` calls see the same attributes `cfg`. -/

/-- Lines 145–213 of Create: the request `gateway` as it stands at the
`LaunchTransitVpc` call, built by the assignments of those lines in order (the checks
between them are in `createChecks`; they read `d` only). -/
def createGateway (cfg : Config) : TransitVpc :=
  let gateway : TransitVpc :=
    { CloudType := cfg.cloud_type, AccountName := cfg.account_name, GwName := cfg.gw_name,
      VpcID := cfg.vpc_id, VpcRegion := cfg.vpc_reg, VpcSize := cfg.gw_size,
      Subnet := cfg.subnet, EnableHybridConnection := cfg.enable_hybrid_connection }
  let gateway := { gateway with EnableNAT := if cfg.enable_snat then "yes" else "no" }
  let gateway := { gateway with ConnectedTransit := if cfg.connected_transit then "yes" else "no" }
  let gateway :=
    if cfg.allocate_new_eip then { gateway with ReuseEip := "off" }
    else { gateway with ReuseEip := "on", Eip := cfg.eip }
  let gateway :=
    if cfg.cloud_type = 1 then { gateway with VpcID := cfg.vpc_id }
    else if cfg.cloud_type = 8 then { gateway with VNetNameResourceGroup := cfg.vpc_id }
    else gateway
  if cfg.insane_mode then
    { gateway with InsaneMode := "on", Subnet := joinTilde gateway.Subnet cfg.insane_mode_az }
  else { gateway with InsaneMode := "off" }

/-- Lines 178–220 of Create: the checks made before the first remote call, in order;
the first one that fails gives the returned error. -/
def createChecks (cfg : Config) : Option String :=
  let cloudType := cfg.cloud_type
  let insaneMode := cfg.insane_mode
  if cloudType = 1 ∧ cfg.vpc_id = "" then
    some "'vpc_id' cannot be empty for creating a transit gw for aws vpc"
  else if cloudType ≠ 1 ∧ cloudType = 8 ∧ cfg.vpc_id = "" then
    some "'vpc_id' cannot be empty for creating a transit gw for azure vnet"
  else if insaneMode ∧ cloudType ≠ 1 then
    some "insane_mode is only support for aws (cloud_type = 1)"
  else if insaneMode ∧ cfg.insane_mode_az = "" then
    some "insane_mode_az needed if insane_mode is enabled"
  else if insaneMode ∧ cfg.ha_subnet ≠ "" ∧ cfg.ha_insane_mode_az = "" then
    some "ha_insane_mode_az needed if insane_mode is enabled and ha_subnet is set"
  else if cfg.ha_gw_size = "" ∧ cfg.ha_subnet ≠ "" then
    some ("A valid non empty ha_gw_size parameter is mandatory for this resource if " ++
      "ha_subnet is set. Example: t2.micro")
  else none

/-- Lines 145–220 of Create: the error of the first failing check, or the request. -/
def createRequest (cfg : Config) : Except String TransitVpc :=
  match createChecks cfg with
  | some msg => .error msg
  | none => .ok (createGateway cfg)

/-- Lines 234–279 of Create: enable HA and, when the sizes differ, resize the HA gateway. -/
def createHa (client : Client) (cfg : Config) (gateway : TransitVpc) : Block :=
  if cfg.ha_subnet ≠ "" then
    let transitGateway : TransitVpc :=
      { GwName := cfg.gw_name, HASubnet := cfg.ha_subnet, Eip := cfg.ha_eip }
    let transitGateway :=
      if cfg.insane_mode then
        { transitGateway with HASubnet := joinTilde cfg.ha_subnet cfg.ha_insane_mode_az }
      else transitGateway
    (callOrFail (.EnableHaTransitVpc transitGateway) (client.EnableHaTransitVpc transitGateway)
        (fun err => "failed to enable HA Aviatrix Transit Gateway: " ++ err.Error)).andThen
    (if cfg.ha_gw_size ≠ gateway.VpcSize then
      if cfg.ha_gw_size = "" then
        fun w => (w, .ret (some ("A valid non empty ha_gw_size parameter is mandatory for this " ++
          "resource if ha_subnet is set. Example: t2.micro")))
      else
        let haGateway : Gateway :=
          { CloudType := cfg.cloud_type, GwName := cfg.gw_name ++ "-hagw", GwSize := cfg.ha_gw_size }
        callOrFail (.UpdateGateway haGateway) (client.UpdateGateway haGateway)
          (fun err => "failed to update Aviatrix Transit HA Gateway size: " ++ err.Error)
    else fun w => (w, .next))
  else fun w => (w, .next)

/-- Line 288 of Create: `gateway` after the tag step has set `gateway.TagList`. -/
def createGatewayTagged (tagColon : List String → List String) (cfg : Config)
    (gateway : TransitVpc) : TransitVpc :=
  if cfg.tag_list ≠ [] then
    { gateway with TagList := joinComma (tagColon (ExpandStringList cfg.tag_list)) }
  else gateway

/-- Lines 281–300 of Create: the tag step. `tagColon` is `goaviatrix.TagListStrColon`. -/
def createTags (tagColon : List String → List String) (client : Client) (cfg : Config) : Block :=
  if cfg.tag_list ≠ [] then
    if cfg.cloud_type ≠ 1 then
      fun w => (w, .ret (some "'tag_list' is only supported for AWS cloud type 1"))
    else
      let tags : Tags :=
        { CloudType := 1, ResourceType := "gw", ResourceName := cfg.gw_name,
          TagList := joinComma (tagColon (ExpandStringList cfg.tag_list)) }
      callOrFail (.AddTags tags) (client.AddTags tags) (fun err => "failed to add tags: " ++ err.Error)
  else fun w => (w, .next)

/-- Lines 302–316 of Create: the hybrid-connection step. -/
def createHybrid (client : Client) (cfg : Config) (gateway : TransitVpc) : Block :=
  if cfg.enable_hybrid_connection ∧ cfg.cloud_type ≠ 1 then
    fun w => (w, .ret (some "'enable_hybrid_connection' is only supported for AWS cloud type 1"))
  else if cfg.enable_hybrid_connection then
    if cfg.cloud_type ≠ 1 then
      fun w => (w, .ret (some "'enable_hybrid_connection' is only supported for AWS cloud type 1"))
    else
      callOrFail (.AttachTransitGWForHybrid gateway) (client.AttachTransitGWForHybrid gateway)
        (fun err => "failed to enable transit GW for Hybrid: " ++ err.Error)
  else fun w => (w, .next)

/-- Lines 318–323 of Create. -/
def createConnected (client : Client) (cfg : Config) (gateway : TransitVpc) : Block :=
  if cfg.connected_transit then
    callOrFail (.EnableConnectedTransit gateway) (client.EnableConnectedTransit gateway)
      (fun err => "failed to enable connected transit: " ++ err.Error)
  else fun w => (w, .next)

/-- Lines 325–334 of Create. -/
def createSnat (client : Client) (cfg : Config) (gateway : TransitVpc) : Block :=
  if cfg.enable_snat then
    let gw : Gateway := { GwName := gateway.GwName }
    callOrFail (.EnableSNat gw) (client.EnableSNat gw)
      (fun err => "failed to enable SNAT: " ++ err.Error)
  else fun w => (w, .next)

/-- Lines 336–342 of Create. -/
def createFirenet (client : Client) (cfg : Config) (gateway : TransitVpc) : Block :=
  if cfg.enable_firenet_interfaces then
    callOrFail (.EnableGatewayFireNetInterfaces gateway)
      (client.EnableGatewayFireNetInterfaces gateway)
      (fun err => "failed to enable transit GW for FireNet Interfaces: " ++ err.Error)
  else fun w => (w, .next)

/-- Lines 234–342 of Create, in order. -/
def createSteps (tagColon : List String → List String) (client : Client) (cfg : Config)
    (gateway : TransitVpc) : Block :=
  let tagged := createGatewayTagged tagColon cfg gateway
  (createHa client cfg gateway).andThen <|
  (createTags tagColon client cfg).andThen <|
  (createHybrid client cfg tagged).andThen <|
  (createConnected client cfg tagged).andThen <|
  (createSnat client cfg tagged).andThen <|
  (createFirenet client cfg tagged)

/-- Lines 231–344 of Create without the deferred call: the steps, then
`return resourceAviatrixTransitGatewayReadIfRequired(d, meta, &flag)`. The result
carries the value of `flag` at the return and the returned error. -/
def createBody (tagColon : List String → List String) (client : Client) (cfg : Config)
    (gateway : TransitVpc) (w : World) : World × Bool × Option String :=
  match createSteps tagColon client cfg gateway w with
  | (w, .ret e) => (w, false, e)
  | (w, .next) => ReadIfRequired client w false

/-- `resourceAviatrixTransitGatewayCreate`, started on resource data `d` with an
empty call log. After `LaunchTransitVpc` succeeds the id is set, and the call
`defer resourceAviatrixTransitGatewayReadIfRequired(d, meta, &flag)` runs when the
body returns; what the deferred call returns is dropped. -/
def Create (tagColon : List String → List String) (client : Client) (d : ResourceData) :
    World × Option String :=
  let w : World := { d := d }
  match createRequest d.cfg with
  | .error msg => (w, some msg)
  | .ok gateway =>
    let w := w.log (.LaunchTransitVpc gateway)
    match client.LaunchTransitVpc gateway with
    | some err => (w, some ("failed to create Aviatrix Transit Gateway: " ++ err.Error))
    | none =>
      let w := w.setD { w.d with id := gateway.GwName }
      let body := createBody tagColon client d.cfg gateway w
      let deferred := ReadIfRequired client body.1 body.2.1
      (deferred.1, body.2.2)

/-! ## Update

`d.HasChange(k)` holds when attribute `k` differs between `d.prior` and `d.cfg`;
`d.GetChange(k)` gives the two values. `d.Partial` / `d.SetPartial` only select what
is persisted and issue no call; they are left out. Before the final Read, `d.Set` is
called only right before a `return`, so every step reads the same attributes. -/

/-- Lines 510–533 of Update: the checks on attributes that must not change. -/
def updateImmutable (d : ResourceData) : Block := fun w =>
  if d.prior.cloud_type ≠ d.cfg.cloud_type then
    (w, .ret (some "updating cloud_type is not allowed"))
  else if d.prior.account_name ≠ d.cfg.account_name then
    (w, .ret (some "updating account_name is not allowed"))
  else if d.prior.gw_name ≠ d.cfg.gw_name then
    (w, .ret (some "updating gw_name is not allowed"))
  else if d.prior.vpc_id ≠ d.cfg.vpc_id then
    (w, .ret (some "updating vpc_id is not allowed"))
  else if d.prior.vpc_reg ≠ d.cfg.vpc_reg then
    (w, .ret (some "updating vpc_reg is not allowed"))
  else if d.prior.subnet ≠ d.cfg.subnet then
    (w, .ret (some "updating subnet is not allowed"))
  else if d.prior.insane_mode ≠ d.cfg.insane_mode then
    (w, .ret (some "updating insane_mode is not allowed"))
  else if d.prior.insane_mode_az ≠ d.cfg.insane_mode_az then
    (w, .ret (some "updating insane_mode_az is not allowed"))
  else (w, .next)

/-- Lines 535–544 of Update: resize the primary gateway. -/
def updateGwSize (client : Client) (d : ResourceData) : Block :=
  if d.prior.gw_size ≠ d.cfg.gw_size then
    let gateway : Gateway :=
      { CloudType := d.cfg.cloud_type, GwName := d.cfg.gw_name, GwSize := d.cfg.gw_size }
    callOrFail (.UpdateGateway gateway) (client.UpdateGateway gateway)
      (fun err => "failed to update Aviatrix Transit Gateway: " ++ err.Error)
  else fun w => (w, .next)

/-- Lines 546–553 of Update: the request for `EnableHaTransitVpc` before the zone is
appended. -/
def updateHaRequest (cfg : Config) : TransitVpc :=
  let transitGateway : TransitVpc := { GwName := cfg.gw_name, HASubnet := cfg.ha_subnet }
  if cfg.cloud_type = 1 then { transitGateway with Eip := cfg.ha_eip } else transitGateway

/-- Lines 566–592 of Update: the three branches on the old and new `ha_subnet`. In
the last branch the text of a failed `EnableHaTransitVpc` is built from `err`, the
variable of the `DeleteGateway` call before it, which is `nil` at that point. -/
def updateHaBranches (client : Client) (d : ResourceData) (transitGateway : TransitVpc) : Block :=
  let haGateway : Gateway := { CloudType := d.cfg.cloud_type, GwName := d.cfg.gw_name ++ "-hagw" }
  if d.prior.ha_subnet = "" then
    callOrFail (.EnableHaTransitVpc transitGateway) (client.EnableHaTransitVpc transitGateway)
      (fun err => "failed to enable HA Aviatrix Transit Gateway: " ++ err.Error)
  else if d.cfg.ha_subnet = "" then
    callOrFail (.DeleteGateway haGateway) (client.DeleteGateway haGateway)
      (fun err => "failed to delete Aviatrix Transit Gateway HA gateway: " ++ err.Error)
  else
    (callOrFail (.DeleteGateway haGateway) (client.DeleteGateway haGateway)
      (fun err => "failed to delete Aviatrix Transit Gateway HA gateway: " ++ err.Error)).andThen
    (callOrFail (.EnableHaTransitVpc transitGateway) (client.EnableHaTransitVpc transitGateway)
      (fun _ => "failed to enable HA Aviatrix Transit Gateway: " ++ fmtErr none))

/-- Lines 545–594 of Update: the HA step. -/
def updateHa (client : Client) (d : ResourceData) : Block :=
  if d.prior.ha_subnet ≠ d.cfg.ha_subnet ∨ d.prior.ha_insane_mode_az ≠ d.cfg.ha_insane_mode_az then
    let transitGateway := updateHaRequest d.cfg
    if d.cfg.insane_mode = true then
      if d.cfg.ha_insane_mode_az = "" then
        fun w => (w, .ret (some
          "ha_insane_mode_az needed if insane_mode is enabled and ha_subnet is set"))
      else
        updateHaBranches client d
          { transitGateway with
              HASubnet := joinTilde transitGateway.HASubnet d.cfg.ha_insane_mode_az }
    else updateHaBranches client d transitGateway
  else fun w => (w, .next)

/-- Lines 616–633 of Update: the delete-tags and add-tags calls for the two
differences. `tagColon` is `goaviatrix.TagListStrColon`. -/
def updateTagCalls (tagColon : List String → List String) (client : Client) (d : ResourceData)
    (oldTagList newTagList : List String) : Block :=
  let tags : Tags := { CloudType := 1, ResourceType := "gw", ResourceName := d.cfg.gw_name }
  if oldTagList.length ≠ 0 ∨ newTagList.length ≠ 0 then
    (if oldTagList.length ≠ 0 then
      let tags := { tags with TagList := joinComma (tagColon oldTagList) }
      callOrFail (.DeleteTags tags) (client.DeleteTags tags)
        (fun err => "failed to delete tags : " ++ err.Error)
    else fun w => (w, .next)).andThen
    (if newTagList.length ≠ 0 then
      let tags := { tags with TagList := joinComma (tagColon newTagList) }
      callOrFail (.AddTags tags) (client.AddTags tags)
        (fun err => "failed to add tags : " ++ err.Error)
    else fun w => (w, .next))
  else fun w => (w, .next)

/-- Lines 596–640 of Update: the tag step. -/
def updateTags (tagColon : List String → List String) (client : Client) (d : ResourceData) :
    Block :=
  if d.cfg.cloud_type = 1 then
    if d.prior.tag_list ≠ d.cfg.tag_list then
      let oldList := ExpandStringList d.prior.tag_list
      let newList := ExpandStringList d.cfg.tag_list
      updateTagCalls tagColon client d (Difference oldList newList) (Difference newList oldList)
    else fun w => (w, .next)
  else
    if d.prior.tag_list ≠ d.cfg.tag_list then
      fun w => (w, .ret (some "'tag_list' is only supported for AWS cloud type 1"))
    else fun w => (w, .next)

/-- The request built at lines 644–650 and 671–677 of Update. -/
def updateTransitRequest (cfg : Config) : TransitVpc :=
  { CloudType := cfg.cloud_type, AccountName := cfg.account_name, GwName := cfg.gw_name,
    VpcID := cfg.vpc_id, VpcRegion := cfg.vpc_reg }

/-- Lines 642–668 of Update: the hybrid-connection step. -/
def updateHybrid (client : Client) (d : ResourceData) : Block :=
  let transitGateway := updateTransitRequest d.cfg
  if d.cfg.cloud_type = 1 then
    if d.prior.enable_hybrid_connection ≠ d.cfg.enable_hybrid_connection then
      if d.cfg.enable_hybrid_connection then
        callOrFail (.AttachTransitGWForHybrid transitGateway)
          (client.AttachTransitGWForHybrid transitGateway)
          (fun err => "failed to enable transit GW for Hybrid: " ++ err.Error)
      else
        callOrFail (.DetachTransitGWForHybrid transitGateway)
          (client.DetachTransitGWForHybrid transitGateway)
          (fun err => "failed to disable transit GW for Hybrid: " ++ err.Error)
    else fun w => (w, .next)
  else
    if d.prior.enable_hybrid_connection ≠ d.cfg.enable_hybrid_connection then
      fun w => (w, .ret (some "'enable_hybrid_connection' is only supported for AWS cloud type 1"))
    else fun w => (w, .next)

/-- Lines 670–693 of Update: the connected-transit step. -/
def updateConnected (client : Client) (d : ResourceData) : Block :=
  let transitGateway := updateTransitRequest d.cfg
  if d.prior.connected_transit ≠ d.cfg.connected_transit then
    if d.cfg.connected_transit then
      callOrFail (.EnableConnectedTransit transitGateway)
        (client.EnableConnectedTransit transitGateway)
        (fun err => "failed to enable connected transit: " ++ err.Error)
    else
      callOrFail (.DisableConnectedTransit transitGateway)
        (client.DisableConnectedTransit transitGateway)
        (fun err => "failed to disable connected transit: " ++ err.Error)
  else fun w => (w, .next)

/-- Lines 695–720 of Update: the HA size step. -/
def updateHaGwSize (client : Client) (d : ResourceData) : Block :=
  let haGateway : Gateway := { CloudType := d.cfg.cloud_type, GwName := d.cfg.gw_name ++ "-hagw" }
  if d.prior.ha_gw_size ≠ d.cfg.ha_gw_size then
    fun w =>
      let w := w.log (.GetGateway haGateway)
      match client.GetGateway haGateway with
      | .error err =>
        if err = GoError.ErrNotFound then
          (w.setD { w.d with cfg := { w.d.cfg with ha_gw_size := "", ha_subnet := "" } },
           .ret none)
        else
          (w, .ret (some ("couldn't find Aviatrix Transit HA Gateway while trying to update HA Gw "
            ++ "size: " ++ err.Error)))
      | .ok _ =>
        let haGateway := { haGateway with GwSize := d.cfg.ha_gw_size }
        if haGateway.GwSize = "" then
          (w, .ret (some ("A valid non empty ha_gw_size parameter is mandatory for this resource if "
            ++ "ha_subnet is set. Example: t2.micro")))
        else
          callOrFail (.UpdateGateway haGateway) (client.UpdateGateway haGateway)
            (fun err => "failed to update Aviatrix Transit HA Gw size: " ++ err.Error) w
  else fun w => (w, .next)

/-- Lines 722–742 of Update: the SNAT step. -/
def updateSnat (client : Client) (d : ResourceData) : Block :=
  let gw : Gateway := { CloudType := d.cfg.cloud_type, GwName := d.cfg.gw_name }
  if d.prior.enable_snat ≠ d.cfg.enable_snat then
    if d.cfg.enable_snat then
      callOrFail (.EnableSNat gw) (client.EnableSNat gw)
        (fun err => "failed to enable SNAT: " ++ err.Error)
    else
      callOrFail (.DisableSNat gw) (client.DisableSNat gw)
        (fun err => "failed to disable SNAT: " ++ err.Error)
  else fun w => (w, .next)

/-- Lines 744–760 of Update: the firenet step. -/
def updateFirenet (client : Client) (d : ResourceData) : Block :=
  let transitGW : TransitVpc := { GwName := d.cfg.gw_name }
  if d.prior.enable_firenet_interfaces ≠ d.cfg.enable_firenet_interfaces then
    if d.cfg.enable_firenet_interfaces then
      callOrFail (.EnableGatewayFireNetInterfaces transitGW)
        (client.EnableGatewayFireNetInterfaces transitGW)
        (fun err => "failed to enable transit GW for FireNet Interfaces: " ++ err.Error)
    else
      callOrFail (.DisableGatewayFireNetInterfaces transitGW)
        (client.DisableGatewayFireNetInterfaces transitGW)
        (fun err => "failed to remove transit GW for FireNet Interfaces: " ++ err.Error)
  else fun w => (w, .next)

/-- Lines 510–760 of Update, in order. -/
def updateSteps (tagColon : List String → List String) (client : Client) (d : ResourceData) :
    Block :=
  (updateImmutable d).andThen <|
  (updateGwSize client d).andThen <|
  (updateHa client d).andThen <|
  (updateTags tagColon client d).andThen <|
  (updateHybrid client d).andThen <|
  (updateConnected client d).andThen <|
  (updateHaGwSize client d).andThen <|
  (updateSnat client d).andThen <|
  (updateFirenet client d)

/-- `resourceAviatrixTransitGatewayUpdate`, started on resource data `d` with an empty
call log; it ends with `return resourceAviatrixTransitGatewayRead(d, meta)`. -/
def Update (tagColon : List String → List String) (client : Client) (d : ResourceData) :
    World × Option String :=
  match updateSteps tagColon client d { d := d } with
  | (w, .ret e) => (w, e)
  | (w, .next) => Read client w

/-! ## Delete -/

/-- Lines 776–787 of Delete: disable the firenet interfaces when they are enabled. -/
def deleteFirenet (client : Client) (d : ResourceData) : Block :=
  if d.cfg.enable_firenet_interfaces = true then
    let gw : TransitVpc := { CloudType := d.cfg.cloud_type, GwName := d.cfg.gw_name }
    callOrFail (.DisableGatewayFireNetInterfaces gw) (client.DisableGatewayFireNetInterfaces gw)
      (fun err => "failed to disable transit GW for FireNet Interfaces: " ++ err.Error)
  else fun w => (w, .next)

/-- Lines 790–797 of Delete: delete the HA gateway when `ha_subnet` is set. -/
def deleteHa (client : Client) (d : ResourceData) : Block :=
  let gateway : Gateway := { CloudType := d.cfg.cloud_type, GwName := d.cfg.gw_name }
  if d.cfg.ha_subnet ≠ "" then
    let gateway := { gateway with GwName := gateway.GwName ++ "-hagw" }
    callOrFail (.DeleteGateway gateway) (client.DeleteGateway gateway)
      (fun err => "failed to delete Aviatrix Transit Gateway HA gateway: " ++ err.Error)
  else fun w => (w, .next)

/-- Lines 799–804 of Delete: delete the primary gateway. -/
def deletePrimary (client : Client) (d : ResourceData) : Block :=
  let gateway : Gateway := { CloudType := d.cfg.cloud_type, GwName := d.cfg.gw_name }
  callOrFail (.DeleteGateway gateway) (client.DeleteGateway gateway)
    (fun err => "failed to delete Aviatrix Transit Gateway: " ++ err.Error)

/-- `resourceAviatrixTransitGatewayDelete`, started on resource data `d` with an empty
call log. -/
def Delete (client : Client) (d : ResourceData) : World × Option String :=
  match ((deleteFirenet client d).andThen <| (deleteHa client d).andThen <|
      deletePrimary client d) { d := d } with
  | (w, .ret e) => (w, e)
  | (w, .next) => (w, none)

/-! ## Vocabulary of the statements -/

/-- The client method a call goes to. -/
inductive Method where
  | LaunchTransitVpc | EnableHaTransitVpc | UpdateGateway | DeleteGateway
  | GetGateway | GetGatewayDetail | GetTags | AddTags | DeleteTags
  | AttachTransitGWForHybrid | DetachTransitGWForHybrid
  | EnableConnectedTransit | DisableConnectedTransit
  | EnableSNat | DisableSNat
  | EnableGatewayFireNetInterfaces | DisableGatewayFireNetInterfaces
deriving DecidableEq, Repr

/-- The method of a call: create-primary-entity is `LaunchTransitVpc`, enable-HA is
`EnableHaTransitVpc`, resize is `UpdateGateway`, delete-entity is `DeleteGateway`,
get-entity is `GetGateway`. -/
def Call.method : Call → Method
  | .LaunchTransitVpc _ => .LaunchTransitVpc
  | .EnableHaTransitVpc _ => .EnableHaTransitVpc
  | .UpdateGateway _ => .UpdateGateway
  | .DeleteGateway _ => .DeleteGateway
  | .GetGateway _ => .GetGateway
  | .GetGatewayDetail _ => .GetGatewayDetail
  | .GetTags _ => .GetTags
  | .AddTags _ => .AddTags
  | .DeleteTags _ => .DeleteTags
  | .AttachTransitGWForHybrid _ => .AttachTransitGWForHybrid
  | .DetachTransitGWForHybrid _ => .DetachTransitGWForHybrid
  | .EnableConnectedTransit _ => .EnableConnectedTransit
  | .DisableConnectedTransit _ => .DisableConnectedTransit
  | .EnableSNat _ => .EnableSNat
  | .DisableSNat _ => .DisableSNat
  | .EnableGatewayFireNetInterfaces _ => .EnableGatewayFireNetInterfaces
  | .DisableGatewayFireNetInterfaces _ => .DisableGatewayFireNetInterfaces

/-- The steps of Create after the HA step (lines 281–342). -/
def createTail (tagColon : List String → List String) (client : Client) (cfg : Config)
    (gateway : TransitVpc) : Block :=
  (createTags tagColon client cfg).andThen <|
  (createHybrid client cfg gateway).andThen <|
  (createConnected client cfg gateway).andThen <|
  (createSnat client cfg gateway).andThen <|
  (createFirenet client cfg gateway)

/-- The world of Create right after a successful `LaunchTransitVpc g`: the call is
logged and the id is set (line 229). -/
def launched (d : ResourceData) (g : TransitVpc) : World :=
  { d := { d with id := g.GwName }, calls := [Call.LaunchTransitVpc g] }

/-- The calls a block adds to the log all satisfy `P`, and the block does not enter Read. -/
def Block.Emits (B : Block) (P : Call → Prop) : Prop :=
  ∀ w, ∃ l, (B w).1.calls = w.calls ++ l ∧ (∀ c ∈ l, P c) ∧ (B w).1.reads = w.reads

/-- Whenever the block makes the function return, it returns an error. -/
def Block.FailsOnly (B : Block) : Prop :=
  ∀ w w' e, B w = (w', Flow.ret e) → e ≠ none

/-- The lookups (get-entity, get-entity-detail, get-tags): the calls that change nothing
on the controller. -/
def Call.isLookup : Call → Bool
  | .GetGateway _ => true
  | .GetGatewayDetail _ => true
  | .GetTags _ => true
  | _ => false

/-- Every state-changing remote call succeeds. The lookups may answer anything, a
not-found answer included. -/
def Client.ChangesSucceed (c : Client) : Prop :=
  ∀ call, call.isLookup = false → c.answer call = none

/-- A controller that answers get-entity consistently: the gateway it returns carries
the name that was asked for, and asking for it under the gateway's own account name
returns the same gateway. -/
def Client.Consistent (c : Client) : Prop :=
  ∀ req gw, c.GetGateway req = .ok gw →
    gw.GwName = req.GwName ∧
    c.GetGateway { AccountName := gw.AccountName, GwName := gw.GwName } = .ok gw

/-- The calls of a sequence that are issued when each failure stops the sequence:
all calls up to and including the first one the client answers with an error. -/
def untilFailure (client : Client) : List Call → List Call
  | [] => []
  | c :: cs =>
    match client.answer c with
    | none => c :: untilFailure client cs
    | some _ => [c]

/-- The sequence of calls the spec gives for Delete: disable the firenet interfaces if
they are enabled, delete the HA gateway `gw_name + "-hagw"` if `ha_subnet` is set, then
delete the primary gateway. -/
def deleteCalls (cfg : Config) : List Call :=
  (if cfg.enable_firenet_interfaces then
     [Call.DisableGatewayFireNetInterfaces { CloudType := cfg.cloud_type, GwName := cfg.gw_name }]
   else []) ++
  (if cfg.ha_subnet ≠ "" then
     [Call.DeleteGateway { CloudType := cfg.cloud_type, GwName := cfg.gw_name ++ "-hagw" }]
   else []) ++
  [Call.DeleteGateway { CloudType := cfg.cloud_type, GwName := cfg.gw_name }]

/-! ## Concrete clients and configurations -/

/-- A controller on which every call succeeds; get-entity answers with an AWS gateway
of the requested account and name. -/
def okClient : Client where
  LaunchTransitVpc := fun _ => none
  EnableHaTransitVpc := fun _ => none
  UpdateGateway := fun _ => none
  DeleteGateway := fun _ => none
  GetGateway := fun g => .ok { CloudType := 1, AccountName := g.AccountName, GwName := g.GwName }
  GetGatewayDetail := fun _ => .ok {}
  GetTags := fun _ => .ok []
  AddTags := fun _ => none
  DeleteTags := fun _ => none
  AttachTransitGWForHybrid := fun _ => none
  DetachTransitGWForHybrid := fun _ => none
  EnableConnectedTransit := fun _ => none
  DisableConnectedTransit := fun _ => none
  EnableSNat := fun _ => none
  DisableSNat := fun _ => none
  EnableGatewayFireNetInterfaces := fun _ => none
  DisableGatewayFireNetInterfaces := fun _ => none

/-- An AWS configuration without HA. -/
def awsCfg : Config :=
  { cloud_type := 1, account_name := "acct", gw_name := "transit", vpc_id := "vpc-1",
    vpc_reg := "us-east-1", gw_size := "t2.micro", subnet := "10.0.0.0/24" }

/-- An Azure configuration that declares a tag. -/
def azureTagCfg : Config :=
  { cloud_type := 8, account_name := "acct", gw_name := "transit", vpc_id := "vnet:rg",
    vpc_reg := "West US", gw_size := "Standard_B1s", subnet := "10.0.0.0/24",
    tag_list := ["k:v"] }

/-! ## Further vocabulary and concrete inputs -/

/-- The HA calls of Create when they succeed: enable-HA if `ha_subnet` is set, then a
resize of `gw_name + "-hagw"` to `ha_gw_size` if that differs from the primary size. -/
def createHaCalls (cfg : Config) (gateway : TransitVpc) : List Call :=
  if cfg.ha_subnet ≠ "" then
    Call.EnableHaTransitVpc
      { GwName := cfg.gw_name,
        HASubnet := if cfg.insane_mode then cfg.ha_subnet ++ "~~" ++ cfg.ha_insane_mode_az
                    else cfg.ha_subnet,
        Eip := cfg.ha_eip } ::
    (if cfg.ha_gw_size ≠ gateway.VpcSize then
      [Call.UpdateGateway
        { CloudType := cfg.cloud_type, GwName := cfg.gw_name ++ "-hagw", GwSize := cfg.ha_gw_size }]
     else [])
  else []

/-- A configuration with HA and firenet interfaces enabled. -/
def haFirenetCfg : Config :=
  { awsCfg with ha_subnet := "10.0.1.0/24", ha_gw_size := "t2.micro",
                enable_firenet_interfaces := true }

/-- Some attribute that Update refuses to change differs between the applied and the new
configuration. -/
def immutableChanged (d : ResourceData) : Prop :=
  d.prior.cloud_type ≠ d.cfg.cloud_type ∨ d.prior.account_name ≠ d.cfg.account_name ∨
  d.prior.gw_name ≠ d.cfg.gw_name ∨ d.prior.vpc_id ≠ d.cfg.vpc_id ∨
  d.prior.vpc_reg ≠ d.cfg.vpc_reg ∨ d.prior.subnet ≠ d.cfg.subnet ∨
  d.prior.insane_mode ≠ d.cfg.insane_mode ∨ d.prior.insane_mode_az ≠ d.cfg.insane_mode_az

instance (d : ResourceData) : Decidable (immutableChanged d) := by
  unfold immutableChanged; infer_instance

/-- The steps of Update after the tag step (lines 642–760). -/
def updateTail (client : Client) (d : ResourceData) : Block :=
  (updateHybrid client d).andThen <|
  (updateConnected client d).andThen <|
  (updateHaGwSize client d).andThen <|
  (updateSnat client d).andThen <|
  (updateFirenet client d)

/-- The HA step of Update stops at its local check: `ha_subnet` or `ha_insane_mode_az`
changed, insane mode is on and the new `ha_insane_mode_az` is empty. -/
def updateHaRejected (d : ResourceData) : Prop :=
  (d.prior.ha_subnet ≠ d.cfg.ha_subnet ∨ d.prior.ha_insane_mode_az ≠ d.cfg.ha_insane_mode_az) ∧
  d.cfg.insane_mode = true ∧ d.cfg.ha_insane_mode_az = ""

instance (d : ResourceData) : Decidable (updateHaRejected d) := by
  unfold updateHaRejected; infer_instance

/-- The block always falls through to the next statement. -/
def Block.Passes (B : Block) : Prop := ∀ w, ∃ w', B w = (w', Flow.next)

/-- An update that removes HA from an insane-mode gateway: `ha_subnet` and
`ha_insane_mode_az` go from set to empty. -/
def removeHaInsane : ResourceData :=
  { id := "transit",
    cfg := { awsCfg with insane_mode := true, insane_mode_az := "us-east-1a" },
    prior := { awsCfg with insane_mode := true, insane_mode_az := "us-east-1a",
                           ha_subnet := "10.0.1.0/24", ha_insane_mode_az := "us-east-1b",
                           ha_gw_size := "t2.micro" } }

/-- An update of an insane-mode gateway with HA that empties `ha_insane_mode_az`, keeps
`ha_subnet`, and changes the tags from `a:1, b:2` to `a:1, c:3`. -/
def retagInsane : ResourceData :=
  { id := "transit",
    cfg := { awsCfg with insane_mode := true, insane_mode_az := "us-east-1a",
                         ha_subnet := "10.0.1.0/24", ha_insane_mode_az := "",
                         ha_gw_size := "t2.micro", tag_list := ["a:1", "c:3"] },
    prior := { awsCfg with insane_mode := true, insane_mode_az := "us-east-1a",
                           ha_subnet := "10.0.1.0/24", ha_insane_mode_az := "us-east-1b",
                           ha_gw_size := "t2.micro", tag_list := ["a:1", "b:2"] } }

/-- An update that changes only the tags, from `a:1, b:2` to `a:1, c:3`. -/
def retag : ResourceData :=
  { id := "transit",
    cfg := { awsCfg with tag_list := ["a:1", "c:3"] },
    prior := { awsCfg with tag_list := ["a:1", "b:2"] } }

/-- The request of the first lookup of Read: the account and the gateway name, the name
being the id when no name is set. -/
def readRequest (d : ResourceData) : Gateway :=
  { AccountName := d.cfg.account_name,
    GwName := if d.cfg.gw_name = "" then d.id else d.cfg.gw_name }

/-- The HA part of Read (lines 467–493) without the call log: the data it leaves and the
error it returns, as a function of the resource data. It agrees with `readHa`
(`readHa_data`). -/
def readHaData (client : Client) (d : ResourceData) : ResourceData × Option String :=
  match client.GetGateway
      { AccountName := d.cfg.account_name, GwName := d.cfg.gw_name ++ "-hagw" } with
  | .error err =>
    if err = GoError.ErrNotFound then
      ({ d with cfg := { d.cfg with ha_gw_size := "", ha_subnet := "",
                                    ha_insane_mode_az := "", ha_eip := "" } }, none)
    else (d, some ("couldn't find Aviatrix Transit HA Gateway: " ++ err.Error))
  | .ok haGw =>
    ({ d with cfg := { d.cfg with
        ha_eip := haGw.PublicIP, ha_subnet := haGw.VpcNet, ha_gw_size := haGw.GwSize,
        ha_insane_mode_az := if haGw.InsaneMode = "yes" then haGw.GatewayZone else "" } }, none)

/-- Read from line 380 on (the primary gateway `gw` was found) without the call log:
the data it leaves and the error it returns, as a function of the resource data; `name`
is the gateway name Read asked for. It agrees with `Read` (`read_found_data`). -/
def readFoundData (client : Client) (gw : Gateway) (name : String) (d : ResourceData) :
    ResourceData × Option String :=
  let d := { d with cfg := readGatewayFields d.cfg gw }
  match client.GetGatewayDetail gw with
  | .error err => (d, some ("couldn't get Aviatrix Transit Gateway: " ++ err.Error))
  | .ok gwDetail =>
    let d := { d with cfg := { d.cfg with enable_firenet_interfaces := gwDetail.DMZEnabled } }
    if gw.CloudType = 1 then
      match client.GetTags { CloudType := 1, ResourceType := "gw", ResourceName := d.cfg.gw_name } with
      | .error err =>
        (d, some ("unable to read tag_list for gateway: " ++ name ++ " due to " ++ err.Error))
      | .ok tagList =>
        if (Difference d.cfg.tag_list tagList).length ≠ 0 ∨
            (Difference tagList d.cfg.tag_list).length ≠ 0 then
          readHaData client { d with cfg := { d.cfg with tag_list := tagList } }
        else readHaData client d
    else readHaData client d

/-- An AWS configuration in insane mode. -/
def insaneCfg : Config :=
  { awsCfg with insane_mode := true, insane_mode_az := "us-east-1a" }

/-- An AWS configuration with an HA gateway larger than the primary. -/
def haLargeCfg : Config :=
  { awsCfg with ha_subnet := "10.0.1.0/24", ha_gw_size := "t2.large" }

/-- A controller that knows no gateway: every get-entity call answers not-found. -/
def goneClient : Client :=
  { okClient with GetGateway := fun _ => .error GoError.ErrNotFound }

/-- A controller that lists the gateway only when asked without an account name: asked
under any account it answers not-found. Every request gets the same answer every time. -/
def driftClient : Client :=
  { okClient with
    GetGateway := fun g =>
      if g.AccountName = "" then
        .ok { CloudType := 8, AccountName := "acct", GwName := g.GwName }
      else .error GoError.ErrNotFound }

/-- The resource data of an import: only the id is known. -/
def importData : ResourceData := { id := "transit" }

/-- A controller that has the gateway `transit` and no other, in particular no HA
gateway: get-entity answers not-found for every other name. -/
def noHaClient : Client :=
  { okClient with
    GetGateway := fun g =>
      if g.GwName = "transit" then
        .ok { CloudType := 1, AccountName := g.AccountName, GwName := g.GwName }
      else .error GoError.ErrNotFound }

/-- A controller that reports, for every gateway asked for, an AWS gateway whose insane
mode field holds the string `on`. -/
def insaneOnClient : Client :=
  { okClient with
    GetGateway := fun g =>
      .ok { CloudType := 1, AccountName := g.AccountName, GwName := g.GwName,
            InsaneMode := "on", GatewayZone := "us-east-1a" } }

/-- A controller that reports, for every gateway asked for, an AWS gateway with SNAT
reported as `yes`. -/
def snatClient : Client :=
  { okClient with
    GetGateway := fun g =>
      .ok { CloudType := 1, AccountName := g.AccountName, GwName := g.GwName,
            EnableNat := "yes" } }

/-- An AWS configuration with SNAT enabled. -/
def snatCfg : Config := { awsCfg with enable_snat := true }

/-- An update of a gateway without HA that sets `ha_insane_mode_az` and leaves
`ha_subnet` empty. -/
def setHaZoneOnly : ResourceData :=
  { id := "transit",
    cfg := { awsCfg with ha_insane_mode_az := "us-east-1b" },
    prior := awsCfg }

/-- How the calls `l` of a block and the way `f` it ends relate to the client's answers:
either every call succeeded, or the last call is the only one that failed, the function
returned, and what it returned stands in the relation `R` to the failed call and its
error. -/
def Surfaced (client : Client) (R : Call → GoError → Option String → Prop) (l : List Call)
    (f : Flow) : Prop :=
  (∀ c ∈ l, client.answer c = none) ∨
  ∃ pre c e r, l = pre ++ [c] ∧ (∀ x ∈ pre, client.answer x = none) ∧
    client.answer c = some e ∧ f = .ret r ∧ R c e r

/-- From every state, the calls the block adds and the way it ends are as in `Surfaced`. -/
def Block.Surfaces (B : Block) (client : Client) (R : Call → GoError → Option String → Prop) :
    Prop :=
  ∀ w, ∃ l, (B w).1.calls = w.calls ++ l ∧ Surfaced client R l (B w).2

/-- What Update returns (`r`) after the call `c` failed with `e`: nothing after a
not-found answer of a gateway lookup; otherwise some context followed by the text of
`e`. Nothing is said of a failed enable-HA call after the HA gateway was deleted (old and
new `ha_subnet` both non-empty). -/
def updateReports (d : ResourceData) (c : Call) (e : GoError) (r : Option String) : Prop :=
  (c.method = .GetGateway ∧ e = .ErrNotFound ∧ r = none) ∨
  (c.method = .EnableHaTransitVpc ∧ d.prior.ha_subnet ≠ "" ∧ d.cfg.ha_subnet ≠ "") ∨
  (¬ (c.method = .GetGateway ∧ e = .ErrNotFound) ∧ ∃ ctx, r = some (ctx ++ e.Error))

/-- An update that changes nothing. -/
def unchangedData : ResourceData := { id := "transit", cfg := awsCfg, prior := awsCfg }

/-- An update that grows the primary gateway. -/
def resizeData : ResourceData :=
  { id := "transit", cfg := { awsCfg with gw_size := "t2.large" }, prior := awsCfg }

/-- A controller that refuses every resize. -/
def resizeFailClient : Client :=
  { okClient with UpdateGateway := fun _ => some (.other "quota exceeded") }

/-- An update that moves the HA gateway to another subnet. -/
def moveHaData : ResourceData :=
  { id := "transit",
    cfg := { awsCfg with ha_subnet := "10.0.2.0/24", ha_gw_size := "t2.micro" },
    prior := { awsCfg with ha_subnet := "10.0.1.0/24", ha_gw_size := "t2.micro" } }

/-- A controller that refuses every enable-HA call. -/
def enableHaFailClient : Client :=
  { okClient with EnableHaTransitVpc := fun _ => some (.other "subnet in use") }

/-! ## Lemmas and theorems -/

/-! ### The method of each call -/

@[simp] theorem method_LaunchTransitVpc (g : TransitVpc) :
    (Call.LaunchTransitVpc g).method = Method.LaunchTransitVpc := rfl

@[simp] theorem method_EnableHaTransitVpc (g : TransitVpc) :
    (Call.EnableHaTransitVpc g).method = Method.EnableHaTransitVpc := rfl

@[simp] theorem method_UpdateGateway (g : Gateway) :
    (Call.UpdateGateway g).method = Method.UpdateGateway := rfl

@[simp] theorem method_DeleteGateway (g : Gateway) :
    (Call.DeleteGateway g).method = Method.DeleteGateway := rfl

@[simp] theorem method_GetGateway (g : Gateway) :
    (Call.GetGateway g).method = Method.GetGateway := rfl

@[simp] theorem method_GetGatewayDetail (g : Gateway) :
    (Call.GetGatewayDetail g).method = Method.GetGatewayDetail := rfl

@[simp] theorem method_GetTags (g : Tags) :
    (Call.GetTags g).method = Method.GetTags := rfl

@[simp] theorem method_AddTags (g : Tags) :
    (Call.AddTags g).method = Method.AddTags := rfl

@[simp] theorem method_DeleteTags (g : Tags) :
    (Call.DeleteTags g).method = Method.DeleteTags := rfl

@[simp] theorem method_AttachTransitGWForHybrid (g : TransitVpc) :
    (Call.AttachTransitGWForHybrid g).method = Method.AttachTransitGWForHybrid := rfl

@[simp] theorem method_DetachTransitGWForHybrid (g : TransitVpc) :
    (Call.DetachTransitGWForHybrid g).method = Method.DetachTransitGWForHybrid := rfl

@[simp] theorem method_EnableConnectedTransit (g : TransitVpc) :
    (Call.EnableConnectedTransit g).method = Method.EnableConnectedTransit := rfl

@[simp] theorem method_DisableConnectedTransit (g : TransitVpc) :
    (Call.DisableConnectedTransit g).method = Method.DisableConnectedTransit := rfl

@[simp] theorem method_EnableSNat (g : Gateway) :
    (Call.EnableSNat g).method = Method.EnableSNat := rfl

@[simp] theorem method_DisableSNat (g : Gateway) :
    (Call.DisableSNat g).method = Method.DisableSNat := rfl

@[simp] theorem method_EnableGatewayFireNetInterfaces (g : TransitVpc) :
    (Call.EnableGatewayFireNetInterfaces g).method = Method.EnableGatewayFireNetInterfaces := rfl

@[simp] theorem method_DisableGatewayFireNetInterfaces (g : TransitVpc) :
    (Call.DisableGatewayFireNetInterfaces g).method = Method.DisableGatewayFireNetInterfaces := rfl

/-! ### Blocks and their call logs -/

theorem emits_skip (P : Call → Prop) (f : Flow) : Block.Emits (fun w => (w, f)) P := by
  intro w
  exact ⟨[], by simp, by simp, rfl⟩

theorem emits_callOrFail (P : Call → Prop) (c : Call) (r : Option GoError)
    (wrap : GoError → String) (h : P c) : Block.Emits (callOrFail c r wrap) P := by
  intro w
  refine ⟨[c], ?_, by simpa using h, ?_⟩ <;> cases r <;> simp [callOrFail, World.log]

theorem emits_andThen (P : Call → Prop) (s t : Block) (hs : s.Emits P) (ht : t.Emits P) :
    (s.andThen t).Emits P := by
  intro w
  obtain ⟨l₁, h₁, p₁, r₁⟩ := hs w
  unfold Block.andThen
  rcases hsw : s w with ⟨w1, f⟩
  rw [hsw] at h₁ r₁
  cases f with
  | ret e => exact ⟨l₁, h₁, p₁, r₁⟩
  | next =>
    obtain ⟨l₂, h₂, p₂, r₂⟩ := ht w1
    refine ⟨l₁ ++ l₂, ?_, ?_, ?_⟩
    · simp only [h₂]; simp at h₁; rw [h₁, List.append_assoc]
    · intro c hc
      rcases List.mem_append.mp hc with h | h
      · exact p₁ c h
      · exact p₂ c h
    · simp only [r₂]; simpa using r₁

theorem emits_ite (P : Call → Prop) (c : Prop) [Decidable c] (s t : Block)
    (hs : s.Emits P) (ht : t.Emits P) : Block.Emits (if c then s else t) P := by
  split <;> assumption

theorem emits_mono (P Q : Call → Prop) (B : Block) (h : B.Emits P) (hPQ : ∀ c, P c → Q c) :
    B.Emits Q := by
  intro w
  obtain ⟨l, h₁, p₁, r₁⟩ := h w
  exact ⟨l, h₁, fun c hc => hPQ c (p₁ c hc), r₁⟩

theorem emits_at (P : Call → Prop) (B : Block) (h : B.Emits P) (w w' : World) (pre : List Call)
    (hpre : ∀ c ∈ pre, P c) (hc : w'.calls = w.calls ++ pre) (hr : w'.reads = w.reads) :
    ∃ l, (B w').1.calls = w.calls ++ l ∧ (∀ c ∈ l, P c) ∧ (B w').1.reads = w.reads := by
  obtain ⟨l, h₁, h₂, h₃⟩ := h w'
  refine ⟨pre ++ l, ?_, ?_, ?_⟩
  · rw [h₁, hc, List.append_assoc]
  · intro c hc'
    rcases List.mem_append.mp hc' with h | h
    · exact hpre c h
    · exact h₂ c h
  · rw [h₃, hr]

theorem failsOnly_skip : Block.FailsOnly (fun w => (w, Flow.next)) := by
  intro w w' e h
  simp at h

theorem failsOnly_fail (m : String) : Block.FailsOnly (fun w => (w, Flow.ret (some m))) := by
  intro w w' e h
  simp at h
  rw [← h.2]; simp

theorem failsOnly_callOrFail (c : Call) (r : Option GoError) (wrap : GoError → String) :
    Block.FailsOnly (callOrFail c r wrap) := by
  intro w w' e h
  cases r <;> simp [callOrFail] at h
  rw [← h.2]; simp

theorem failsOnly_andThen (s t : Block) (hs : s.FailsOnly) (ht : t.FailsOnly) :
    (s.andThen t).FailsOnly := by
  intro w w' e h
  unfold Block.andThen at h
  rcases hsw : s w with ⟨w1, f⟩
  rw [hsw] at h
  cases f with
  | ret e' =>
    simp at h
    rw [← h.2]; exact hs w w1 e' hsw
  | next => exact ht w1 w' e h

theorem failsOnly_ite (c : Prop) [Decidable c] (s t : Block)
    (hs : s.FailsOnly) (ht : t.FailsOnly) : Block.FailsOnly (if c then s else t) := by
  split <;> assumption

/-! ### Calls of Read -/

theorem readTags_emits (client : Client) (gw gateway : Gateway) :
    (readTags client gw gateway).Emits (fun c => c.method = .GetTags) := by
  intro w
  unfold readTags
  dsimp only
  repeat' split
  all_goals first
    | exact ⟨[_], rfl, by simp [Call.method], rfl⟩
    | exact ⟨[], by simp, by simp, rfl⟩

theorem readHa_emits (client : Client) :
    (readHa client).Emits (fun c => c.method = .GetGateway) := by
  intro w
  unfold readHa
  dsimp only
  split
  · split <;> exact ⟨[_], rfl, by simp [Call.method], rfl⟩
  · exact ⟨[_], rfl, by simp [Call.method], rfl⟩

theorem readPrimary_emits (client : Client) (gateway : Gateway) :
    (readPrimary client gateway).Emits
      (fun c => c.method = .GetGateway ∨ c.method = .GetGatewayDetail ∨ c.method = .GetTags) := by
  intro w
  unfold readPrimary
  dsimp only
  split
  · split <;> exact ⟨[_], rfl, by simp [Call.method], rfl⟩
  · rename_i gw _
    split
    · exact ⟨[.GetGateway gateway, .GetGatewayDetail gw], by simp [World.log, World.setD],
        by simp [Call.method], rfl⟩
    · exact emits_at _ _
        (emits_mono _ (fun c => c.method = .GetGateway ∨ c.method = .GetGatewayDetail ∨
          c.method = .GetTags) _ (readTags_emits client gw gateway) (fun c hc => Or.inr (Or.inr hc)))
        w _ [.GetGateway gateway, .GetGatewayDetail gw] (by simp [Call.method])
        (by simp [World.log, World.setD]) rfl

/-- Read enters once and issues only lookups. -/
theorem read_calls (client : Client) (w : World) :
    ∃ l, (Read client w).1.calls = w.calls ++ l ∧
      (∀ c ∈ l, c.method = .GetGateway ∨ c.method = .GetGatewayDetail ∨ c.method = .GetTags) ∧
      (Read client w).1.reads = w.reads + 1 := by
  have h := emits_andThen _ _ _
    (readPrimary_emits client
      { AccountName := (readImportName w.d).cfg.account_name,
        GwName := (readImportName w.d).cfg.gw_name })
    (emits_mono _ (fun c => c.method = .GetGateway ∨ c.method = .GetGatewayDetail ∨
      c.method = .GetTags) _ (readHa_emits client) (fun c hc => Or.inl hc))
    (({ w with reads := w.reads + 1 } : World).setD (readImportName w.d))
  obtain ⟨l, h₁, h₂, h₃⟩ := h
  refine ⟨l, ?_, h₂, ?_⟩
  · unfold Read
    dsimp only
    split <;> rename_i heq <;> simp only [World.setD] at heq h₁ <;> rw [heq] at h₁ <;> exact h₁
  · unfold Read
    dsimp only
    split <;> rename_i heq <;> simp only [World.setD] at heq h₃ <;> rw [heq] at h₃ <;> exact h₃

/-! ### Calls of the steps of Create -/

theorem createHa_emits (client : Client) (cfg : Config) (gateway : TransitVpc) :
    (createHa client cfg gateway).Emits
      (fun c => c.method = .EnableHaTransitVpc ∨ c.method = .UpdateGateway) := by
  unfold createHa
  dsimp only
  repeat' first
    | apply emits_ite
    | apply emits_andThen
    | apply emits_callOrFail
    | apply emits_skip
  all_goals simp [Call.method]

theorem createHa_failsOnly (client : Client) (cfg : Config) (gateway : TransitVpc) :
    (createHa client cfg gateway).FailsOnly := by
  unfold createHa
  dsimp only
  repeat' first
    | apply failsOnly_ite
    | apply failsOnly_andThen
    | apply failsOnly_callOrFail
    | apply failsOnly_skip
    | apply failsOnly_fail

theorem createTail_emits (tagColon : List String → List String) (client : Client) (cfg : Config)
    (gateway : TransitVpc) :
    (createTail tagColon client cfg gateway).Emits
      (fun c => c.method = .AddTags ∨ c.method = .AttachTransitGWForHybrid ∨
        c.method = .EnableConnectedTransit ∨ c.method = .EnableSNat ∨
        c.method = .EnableGatewayFireNetInterfaces) := by
  unfold createTail createTags createHybrid createConnected createSnat createFirenet
  dsimp only
  repeat' first
    | apply emits_ite
    | apply emits_andThen
    | apply emits_callOrFail
    | apply emits_skip
  all_goals simp [Call.method]

theorem createTail_failsOnly (tagColon : List String → List String) (client : Client)
    (cfg : Config) (gateway : TransitVpc) :
    (createTail tagColon client cfg gateway).FailsOnly := by
  unfold createTail createTags createHybrid createConnected createSnat createFirenet
  dsimp only
  repeat' first
    | apply failsOnly_ite
    | apply failsOnly_andThen
    | apply failsOnly_callOrFail
    | apply failsOnly_skip
    | apply failsOnly_fail

theorem createSteps_eq (tagColon : List String → List String) (client : Client) (cfg : Config)
    (gateway : TransitVpc) :
    createSteps tagColon client cfg gateway =
      (createHa client cfg gateway).andThen
        (createTail tagColon client cfg (createGatewayTagged tagColon cfg gateway)) := rfl

/-! ### The shape of Create -/

theorem create_invalid (tagColon : List String → List String) (client : Client)
    (d : ResourceData) (msg : String) (h : createRequest d.cfg = .error msg) :
    Create tagColon client d = ({ d := d }, some msg) := by
  unfold Create
  simp only [h]

theorem create_launch_failed (tagColon : List String → List String) (client : Client)
    (d : ResourceData) (g : TransitVpc) (err : GoError) (h : createRequest d.cfg = .ok g)
    (hl : client.LaunchTransitVpc g = some err) :
    Create tagColon client d =
      ({ d := d, calls := [Call.LaunchTransitVpc g] },
        some ("failed to create Aviatrix Transit Gateway: " ++ err.Error)) := by
  unfold Create
  simp only [h, hl]
  rfl

theorem create_launched (tagColon : List String → List String) (client : Client)
    (d : ResourceData) (g : TransitVpc) (h : createRequest d.cfg = .ok g)
    (hl : client.LaunchTransitVpc g = none) :
    Create tagColon client d =
      match createSteps tagColon client d.cfg g (launched d g) with
      | (w, .ret e) => ((Read client w).1, e)
      | (w, .next) => Read client w := by
  unfold Create
  simp only [h, hl]
  have hw : (({ d := d } : World).log (Call.LaunchTransitVpc g)).setD
      { (({ d := d } : World).log (Call.LaunchTransitVpc g)).d with id := g.GwName } =
      launched d g := rfl
  rw [hw]
  unfold createBody
  rcases createSteps tagColon client d.cfg g (launched d g) with ⟨w, f⟩
  cases f <;> simp [ReadIfRequired]

theorem createSteps_emits (tagColon : List String → List String) (client : Client)
    (cfg : Config) (gateway : TransitVpc) :
    (createSteps tagColon client cfg gateway).Emits
      (fun c => c.method ≠ .LaunchTransitVpc ∧ c.method ≠ .GetGateway ∧
        c.method ≠ .GetGatewayDetail ∧ c.method ≠ .GetTags) := by
  rw [createSteps_eq]
  apply emits_andThen
  · exact emits_mono _ _ _ (createHa_emits client cfg gateway)
      (fun c hc => by rcases hc with h | h <;> simp [h])
  · exact emits_mono _ _ _ (createTail_emits tagColon client cfg _)
      (fun c hc => by rcases hc with h | h | h | h | h <;> simp [h])

theorem createSteps_tags_unsupported (tagColon : List String → List String) (client : Client)
    (cfg : Config) (gateway : TransitVpc) (hct : cfg.cloud_type ≠ 1) (htl : cfg.tag_list ≠ [])
    (w : World) :
    ∃ w' e l, createSteps tagColon client cfg gateway w = (w', .ret (some e)) ∧
      w'.calls = w.calls ++ l ∧
      (∀ c ∈ l, c.method = .EnableHaTransitVpc ∨ c.method = .UpdateGateway) ∧
      w'.reads = w.reads := by
  obtain ⟨l, h₁, h₂, h₃⟩ := createHa_emits client cfg gateway w
  rw [createSteps_eq]
  unfold Block.andThen
  rcases hha : createHa client cfg gateway w with ⟨wh, fh⟩
  rw [hha] at h₁ h₃
  cases fh with
  | ret e =>
    cases e with
    | none => exact absurd rfl (createHa_failsOnly client cfg gateway w wh none hha)
    | some m => exact ⟨wh, m, l, rfl, h₁, h₂, h₃⟩
  | next =>
    refine ⟨wh, "'tag_list' is only supported for AWS cloud type 1", l, ?_, h₁, h₂, h₃⟩
    simp [createTail, createTags, hct, htl, Block.andThen]

/-- What Create has logged when `LaunchTransitVpc` succeeded: the launch, then calls of
the steps, then the lookups of the one Read; and what it returns. -/
theorem create_log (tagColon : List String → List String) (client : Client)
    (d : ResourceData) (g : TransitVpc) (h : createRequest d.cfg = .ok g)
    (hl : client.LaunchTransitVpc g = none) :
    ∃ w f l, createSteps tagColon client d.cfg g (launched d g) = (w, f) ∧
      (Create tagColon client d).1.calls = w.calls ++ l ∧
      (∀ c ∈ l, c.method = .GetGateway ∨ c.method = .GetGatewayDetail ∨ c.method = .GetTags) ∧
      (Create tagColon client d).1.reads = w.reads + 1 ∧
      (∀ e, f = .ret e → (Create tagColon client d).2 = e) := by
  rw [create_launched tagColon client d g h hl]
  rcases hs : createSteps tagColon client d.cfg g (launched d g) with ⟨w, f⟩
  obtain ⟨l, h₁, h₂, h₃⟩ := read_calls client w
  refine ⟨w, f, l, rfl, ?_, h₂, ?_, ?_⟩
  · cases f <;> exact h₁
  · cases f <;> exact h₃
  · intro e he
    subst he
    rfl

/-- The only `LaunchTransitVpc` call of Create carries the request built before it. -/
theorem create_launch_mem (tagColon : List String → List String) (client : Client)
    (d : ResourceData) (g : TransitVpc)
    (hg : Call.LaunchTransitVpc g ∈ (Create tagColon client d).1.calls) :
    createRequest d.cfg = .ok g := by
  rcases hreq : createRequest d.cfg with msg | g'
  · rw [create_invalid tagColon client d msg hreq] at hg
    simp at hg
  · rcases hl : client.LaunchTransitVpc g' with _ | err
    · obtain ⟨w, f, l, hs, hc, hl', -, -⟩ := create_log tagColon client d g' hreq hl
      obtain ⟨l₂, h₁, h₂, -⟩ := createSteps_emits tagColon client d.cfg g' (launched d g')
      rw [hs] at h₁
      rw [hc, h₁] at hg
      simp only [launched, List.mem_append, List.mem_singleton] at hg
      rcases hg with (hg | hg) | hg
      · cases hg; rfl
      · exact absurd rfl (h₂ _ hg).1
      · rcases hl' _ hg with h | h | h <;> simp [Call.method] at h
    · rw [create_launch_failed tagColon client d g' err hreq hl] at hg
      simp at hg
      rw [hg]

theorem createHa_ok (client : Client) (cfg : Config) (gateway : TransitVpc)
    (hE : ∀ g, client.EnableHaTransitVpc g = none) (hU : ∀ g, client.UpdateGateway g = none)
    (hv : ¬ (cfg.ha_gw_size = "" ∧ cfg.ha_subnet ≠ "")) (w : World) :
    createHa client cfg gateway w =
      ({ w with calls := w.calls ++ createHaCalls cfg gateway }, .next) := by
  unfold createHa createHaCalls
  by_cases hs : cfg.ha_subnet = ""
  · simp [hs]
  · have hz : cfg.ha_gw_size ≠ "" := fun h => hv ⟨h, hs⟩
    by_cases hsz : cfg.ha_gw_size = gateway.VpcSize <;> cases hi : cfg.insane_mode <;>
      simp [hs, hz, hsz, hi, hE, hU, Block.andThen, callOrFail, World.log, joinTilde]

/-- When the state-changing calls succeed, Create logs the launch, the HA calls, and then
only calls that are neither launch nor HA calls. -/
theorem create_ha_log (tagColon : List String → List String) (client : Client)
    (d : ResourceData) (hv : createChecks d.cfg = none) (hok : client.ChangesSucceed) :
    ∃ rest, (Create tagColon client d).1.calls =
        Call.LaunchTransitVpc (createGateway d.cfg) ::
          (createHaCalls d.cfg (createGateway d.cfg) ++ rest) ∧
      ∀ c ∈ rest, c.method ≠ .LaunchTransitVpc ∧ c.method ≠ .EnableHaTransitVpc ∧
        c.method ≠ .UpdateGateway := by
  have hreq : createRequest d.cfg = .ok (createGateway d.cfg) := by
    unfold createRequest; rw [hv]
  have hv' : ¬ (d.cfg.ha_gw_size = "" ∧ d.cfg.ha_subnet ≠ "") := by
    intro h
    unfold createChecks at hv
    dsimp only at hv
    split_ifs at hv
  obtain ⟨w, f, l, hs, hc, hl, -, -⟩ :=
    create_log tagColon client d _ hreq (hok (.LaunchTransitVpc _) rfl)
  rw [createSteps_eq] at hs
  unfold Block.andThen at hs
  rw [createHa_ok client d.cfg _ (fun g => hok (.EnableHaTransitVpc g) rfl)
    (fun g => hok (.UpdateGateway g) rfl) hv'] at hs
  dsimp only at hs
  obtain ⟨l₂, h₁, h₂, -⟩ := createTail_emits tagColon client d.cfg
    (createGatewayTagged tagColon d.cfg (createGateway d.cfg))
    { launched d (createGateway d.cfg) with
      calls := (launched d (createGateway d.cfg)).calls ++
        createHaCalls d.cfg (createGateway d.cfg) }
  rw [hs] at h₁
  dsimp only at h₁
  refine ⟨l₂ ++ l, ?_, ?_⟩
  · rw [hc, h₁]
    simp [launched]
  · intro c hcm
    rcases List.mem_append.mp hcm with h | h
    · rcases h₂ c h with h | h | h | h | h <;> simp [h]
    · rcases hl c h with h | h | h <;> simp [h]

/-! ### Create: the check of tag_list (C1) -/

/-- The request of `LaunchTransitVpc`, field by field. -/
theorem createGateway_eq (cfg : Config) :
    createGateway cfg =
      { CloudType := cfg.cloud_type, AccountName := cfg.account_name, GwName := cfg.gw_name,
        VpcID := cfg.vpc_id,
        VNetNameResourceGroup := if cfg.cloud_type ≠ 1 ∧ cfg.cloud_type = 8 then cfg.vpc_id else "",
        VpcRegion := cfg.vpc_reg, VpcSize := cfg.gw_size,
        Subnet := if cfg.insane_mode then cfg.subnet ++ "~~" ++ cfg.insane_mode_az else cfg.subnet,
        HASubnet := "",
        EnableNAT := if cfg.enable_snat then "yes" else "no",
        ConnectedTransit := if cfg.connected_transit then "yes" else "no",
        ReuseEip := if cfg.allocate_new_eip then "off" else "on",
        Eip := if cfg.allocate_new_eip then "" else cfg.eip,
        InsaneMode := if cfg.insane_mode then "on" else "off",
        TagList := "",
        EnableHybridConnection := cfg.enable_hybrid_connection } := by
  unfold createGateway
  cases cfg.insane_mode <;> cases cfg.allocate_new_eip <;>
    by_cases h1 : cfg.cloud_type = 1 <;> by_cases h8 : cfg.cloud_type = 8 <;>
    simp [h1, h8, joinTilde]

theorem createRequest_ok (cfg : Config) (g : TransitVpc) (h : createRequest cfg = .ok g) :
    createChecks cfg = none ∧ g = createGateway cfg := by
  unfold createRequest at h
  split at h
  · cases h
  · rename_i hc
    cases h
    exact ⟨hc, rfl⟩

/-- C1 as stated fails: an Azure configuration with a tag makes Create issue the
create-primary-entity call before the tag check rejects it. -/
theorem create_tags_unsupported_counterexample :
    ¬ ∀ (tagColon : List String → List String) (client : Client) (d : ResourceData),
      d.cfg.cloud_type ≠ 1 → d.cfg.tag_list ≠ [] →
      (Create tagColon client d).2 ≠ none ∧ (Create tagColon client d).1.calls = [] := by
  intro h
  have h' := (h id okClient { cfg := azureTagCfg } (by decide) (by decide)).2
  revert h'
  decide

/-- C1 (amended): for every configuration whose cloud_type is not 1 and whose tag_list
is non-empty, Create returns an error and issues no add-tags call nor any call of a
later step: every call it has issued is the create-primary-entity call, an HA call
(enable-HA, resize) or a lookup of the final Read. The tag check comes after the
create-primary-entity call: when the checks before that call pass, it is the first call
issued. -/
theorem create_tags_unsupported (tagColon : List String → List String) (client : Client)
    (d : ResourceData) (hct : d.cfg.cloud_type ≠ 1) (htl : d.cfg.tag_list ≠ []) :
    (Create tagColon client d).2 ≠ none ∧
    (∀ c ∈ (Create tagColon client d).1.calls,
      c.method = .LaunchTransitVpc ∨ c.method = .EnableHaTransitVpc ∨
      c.method = .UpdateGateway ∨ c.method = .GetGateway ∨ c.method = .GetGatewayDetail ∨
      c.method = .GetTags) ∧
    (∀ g, createRequest d.cfg = .ok g →
      (Create tagColon client d).1.calls.head? = some (Call.LaunchTransitVpc g)) := by
  rcases hreq : createRequest d.cfg with msg | g
  · rw [create_invalid tagColon client d msg hreq]
    simp
  · rcases hl : client.LaunchTransitVpc g with _ | err
    · obtain ⟨w, f, l, hs, hc, hl', -, he⟩ := create_log tagColon client d g hreq hl
      obtain ⟨w', e, l₂, hs', h₁, h₂, -⟩ :=
        createSteps_tags_unsupported tagColon client d.cfg g hct htl (launched d g)
      rw [hs] at hs'
      cases hs'
      refine ⟨?_, ?_, ?_⟩
      · rw [he _ rfl]; simp
      · intro c hcm
        rw [hc, h₁] at hcm
        simp only [launched, List.mem_append, List.mem_singleton] at hcm
        rcases hcm with (hcm | hcm) | hcm
        · subst hcm; simp [Call.method]
        · rcases h₂ c hcm with h | h <;> simp [h]
        · rcases hl' c hcm with h | h | h <;> simp [h]
      · intro g' hg'
        cases hg'
        rw [hc, h₁]
        simp [launched]
    · rw [create_launch_failed tagColon client d g err hreq hl]
      simp [Call.method]

/-- Witness of `create_tags_unsupported`: the Azure configuration with a tag is
rejected. -/
theorem create_tags_unsupported_witness :
    (Create id okClient { cfg := azureTagCfg }).2 ≠ none :=
  (create_tags_unsupported id okClient { cfg := azureTagCfg } (by decide) (by decide)).1

/-! ### Create: the request sent, the single Read, the calls issued (C3, C10, C4) -/

/-- C3: whenever Create issues the create-primary-entity call, the Subnet of its request
is `subnet ++ "~~" ++ insane_mode_az` if insane_mode is true, and the declared subnet
unchanged if insane_mode is false. -/
theorem create_subnet_sent (tagColon : List String → List String) (client : Client)
    (d : ResourceData) (g : TransitVpc)
    (hg : Call.LaunchTransitVpc g ∈ (Create tagColon client d).1.calls) :
    (d.cfg.insane_mode = true → g.Subnet = d.cfg.subnet ++ "~~" ++ d.cfg.insane_mode_az) ∧
    (d.cfg.insane_mode = false → g.Subnet = d.cfg.subnet) := by
  obtain ⟨-, rfl⟩ := createRequest_ok d.cfg g (create_launch_mem tagColon client d g hg)
  rw [createGateway_eq]
  constructor <;> intro h <;> simp [h]

/-- C10: in every run of Create in which the create-primary-entity call succeeds, Read
is entered exactly once, whatever the later steps answer; a call of the read-if-required
helper with the flag set does nothing and returns no error, and a call with the flag
clear leaves it set. -/
theorem create_reads_once (tagColon : List String → List String) (client : Client)
    (d : ResourceData) (g : TransitVpc)
    (hg : Call.LaunchTransitVpc g ∈ (Create tagColon client d).1.calls)
    (hok : client.LaunchTransitVpc g = none) :
    (Create tagColon client d).1.reads = 1 ∧
    (∀ w, ReadIfRequired client w true = (w, true, none)) ∧
    (∀ w, (ReadIfRequired client w false).2.1 = true) := by
  have hreq := create_launch_mem tagColon client d g hg
  obtain ⟨w, f, l, hs, -, -, hr, -⟩ := create_log tagColon client d g hreq hok
  obtain ⟨l₂, -, -, h₃⟩ := createSteps_emits tagColon client d.cfg g (launched d g)
  rw [hs] at h₃
  refine ⟨?_, ?_, ?_⟩
  · rw [hr, h₃]; rfl
  · intro w; rfl
  · intro w; rfl

/-- C4: for a configuration that passes the checks of Create, when every state-changing
remote call succeeds (the lookups of the final Read may answer anything, not-found
included), Create issues exactly one create-primary-entity call; exactly one enable-HA
call if ha_subnet is non-empty, and neither an enable-HA nor a resize call if it is
empty; and its resize calls are exactly one call on `gw_name ++ "-hagw"` with size
ha_gw_size when ha_subnet is non-empty and ha_gw_size differs from gw_size, and none
otherwise. -/
theorem create_call_counts (tagColon : List String → List String) (client : Client)
    (d : ResourceData) (hv : createChecks d.cfg = none) (hok : client.ChangesSucceed) :
    ((Create tagColon client d).1.calls.countP (fun c => c.method = .LaunchTransitVpc) = 1) ∧
    (d.cfg.ha_subnet ≠ "" →
      (Create tagColon client d).1.calls.countP (fun c => c.method = .EnableHaTransitVpc) = 1) ∧
    (d.cfg.ha_subnet = "" →
      (Create tagColon client d).1.calls.countP (fun c => c.method = .EnableHaTransitVpc) = 0 ∧
      (Create tagColon client d).1.calls.countP (fun c => c.method = .UpdateGateway) = 0) ∧
    ((Create tagColon client d).1.calls.filter (fun c => c.method = .UpdateGateway) =
      if d.cfg.ha_subnet ≠ "" ∧ d.cfg.ha_gw_size ≠ d.cfg.gw_size then
        [Call.UpdateGateway { CloudType := d.cfg.cloud_type, GwName := d.cfg.gw_name ++ "-hagw",
                              GwSize := d.cfg.ha_gw_size }]
      else []) := by
  obtain ⟨rest, hc, hrest⟩ := create_ha_log tagColon client d hv hok
  have hL : rest.countP (fun c => c.method = .LaunchTransitVpc) = 0 :=
    List.countP_eq_zero.mpr (fun c hcm => by simpa using (hrest c hcm).1)
  have hE : rest.countP (fun c => c.method = .EnableHaTransitVpc) = 0 :=
    List.countP_eq_zero.mpr (fun c hcm => by simpa using (hrest c hcm).2.1)
  have hU : rest.countP (fun c => c.method = .UpdateGateway) = 0 :=
    List.countP_eq_zero.mpr (fun c hcm => by simpa using (hrest c hcm).2.2)
  have hUf : rest.filter (fun c => c.method = .UpdateGateway) = [] :=
    List.filter_eq_nil_iff.mpr (fun c hcm => by simpa using (hrest c hcm).2.2)
  have hsz : (createGateway d.cfg).VpcSize = d.cfg.gw_size := by rw [createGateway_eq]
  rw [hc]
  refine ⟨?_, ?_, ?_, ?_⟩
  · unfold createHaCalls
    split_ifs <;> simp [List.countP_cons, List.countP_append, hL]
  · intro hs
    unfold createHaCalls
    split_ifs <;> simp [List.countP_cons, List.countP_append, hE]
  · intro hs
    unfold createHaCalls
    simp [hs, List.countP_cons, hE, hU]
  · unfold createHaCalls
    rw [hsz]
    by_cases hs : d.cfg.ha_subnet = "" <;> by_cases hz : d.cfg.ha_gw_size = d.cfg.gw_size <;>
      simp [hs, hz, List.filter_cons, hUf]

/-! ### Delete (C9) -/

/-- Delete logs the calls of its sequence up to and including the first failure, and
returns an error exactly when one of them fails. -/
theorem delete_run (client : Client) (d : ResourceData) :
    (Delete client d).1.calls = untilFailure client (deleteCalls d.cfg) ∧
    ((Delete client d).2 = none ↔ ∀ c ∈ deleteCalls d.cfg, client.answer c = none) := by
  unfold Delete deleteFirenet deleteHa deletePrimary deleteCalls
  cases hf : d.cfg.enable_firenet_interfaces <;> by_cases hs : d.cfg.ha_subnet = "" <;>
    cases h1 : client.DisableGatewayFireNetInterfaces
      { CloudType := d.cfg.cloud_type, GwName := d.cfg.gw_name } <;>
    cases h2 : client.DeleteGateway
      { CloudType := d.cfg.cloud_type, GwName := d.cfg.gw_name ++ "-hagw" } <;>
    cases h3 : client.DeleteGateway
      { CloudType := d.cfg.cloud_type, GwName := d.cfg.gw_name } <;>
    simp [hs, h1, h2, h3, Block.andThen, callOrFail, untilFailure, Client.answer, World.log]

theorem untilFailure_all_ok (client : Client) (l : List Call)
    (h : ∀ c ∈ l, client.answer c = none) : untilFailure client l = l := by
  induction l with
  | nil => rfl
  | cons c cs ih =>
    have hc : client.answer c = none := h c (List.mem_cons_self c cs)
    simp only [untilFailure, hc]
    rw [ih (fun x hx => h x (List.mem_cons_of_mem c hx))]

theorem untilFailure_first_failure (client : Client) (pre post : List Call) (c : Call)
    (h : ∀ x ∈ pre, client.answer x = none) (hc : client.answer c ≠ none) :
    untilFailure client (pre ++ c :: post) = pre ++ [c] := by
  induction pre with
  | nil =>
    rcases hca : client.answer c with _ | e
    · exact absurd hca hc
    · simp [untilFailure, hca]
  | cons x xs ih =>
    have hx : client.answer x = none := h x (List.mem_cons_self x xs)
    have ih' := ih (fun y hy => h y (List.mem_cons_of_mem x hy))
    simp only [List.cons_append, untilFailure, hx]
    exact congrArg (List.cons x) ih'

/-- C9: when all of them succeed, the calls of Delete are, in this order, a
disable-firenet-interfaces call iff enable_firenet_interfaces is true, a delete-entity
call on `gw_name ++ "-hagw"` iff ha_subnet is non-empty, and a delete-entity call on
gw_name (the list `deleteCalls`), and Delete returns no error; if a call of that sequence
fails after the ones before it succeeded, Delete returns an error and has issued none
of the later calls. -/
theorem delete_sequence (client : Client) (d : ResourceData) :
    ((∀ c ∈ deleteCalls d.cfg, client.answer c = none) →
      (Delete client d).1.calls = deleteCalls d.cfg ∧ (Delete client d).2 = none) ∧
    (∀ pre c post, deleteCalls d.cfg = pre ++ c :: post →
      (∀ x ∈ pre, client.answer x = none) → client.answer c ≠ none →
      (Delete client d).1.calls = pre ++ [c] ∧ (Delete client d).2 ≠ none) := by
  obtain ⟨hcalls, herr⟩ := delete_run client d
  constructor
  · intro h
    exact ⟨by rw [hcalls, untilFailure_all_ok client _ h], herr.mpr h⟩
  · intro pre c post hsplit hpre hc
    refine ⟨by rw [hcalls, hsplit, untilFailure_first_failure client pre post c hpre hc], ?_⟩
    intro hnone
    exact hc (herr.mp hnone c (by rw [hsplit]; simp))

/-- Witness of `delete_sequence`: with all calls succeeding, Delete of a gateway with HA
and firenet interfaces issues the three calls in order. -/
theorem delete_sequence_witness :
    (Delete okClient { cfg := haFirenetCfg }).1.calls =
      [Call.DisableGatewayFireNetInterfaces { CloudType := 1, GwName := "transit" },
       Call.DeleteGateway { CloudType := 1, GwName := "transit-hagw" },
       Call.DeleteGateway { CloudType := 1, GwName := "transit" }] ∧
    (Delete okClient { cfg := haFirenetCfg }).2 = none :=
  (delete_sequence okClient { cfg := haFirenetCfg }).1 (by decide)

/-! ### Update: attributes that must not change (C2) -/

theorem updateImmutable_changed (d : ResourceData) (h : immutableChanged d) (w : World) :
    ∃ msg, updateImmutable d w = (w, .ret (some msg)) := by
  unfold updateImmutable
  unfold immutableChanged at h
  split_ifs <;> first
    | exact ⟨_, rfl⟩
    | (exfalso; tauto)

theorem updateImmutable_unchanged (d : ResourceData) (h : ¬ immutableChanged d) (w : World) :
    updateImmutable d w = (w, .next) := by
  unfold updateImmutable
  unfold immutableChanged at h
  split_ifs <;> first
    | rfl
    | (exfalso; tauto)

/-- C2: when cloud_type, account_name, gw_name, vpc_id, vpc_reg, subnet, insane_mode or
insane_mode_az differs between the applied and the new configuration, Update returns an
error and issues no remote call, whatever else changed. -/
theorem update_immutable_rejected (tagColon : List String → List String) (client : Client)
    (d : ResourceData)
    (h : d.prior.cloud_type ≠ d.cfg.cloud_type ∨ d.prior.account_name ≠ d.cfg.account_name ∨
      d.prior.gw_name ≠ d.cfg.gw_name ∨ d.prior.vpc_id ≠ d.cfg.vpc_id ∨
      d.prior.vpc_reg ≠ d.cfg.vpc_reg ∨ d.prior.subnet ≠ d.cfg.subnet ∨
      d.prior.insane_mode ≠ d.cfg.insane_mode ∨
      d.prior.insane_mode_az ≠ d.cfg.insane_mode_az) :
    (Update tagColon client d).2 ≠ none ∧ (Update tagColon client d).1.calls = [] := by
  obtain ⟨msg, hmsg⟩ := updateImmutable_changed d h { d := d }
  unfold Update updateSteps Block.andThen
  rw [hmsg]
  simp

/-- Witness of `update_immutable_rejected`: the subnet changes, and so does the size. -/
theorem update_immutable_rejected_witness :
    (Update id okClient
        { cfg := { awsCfg with subnet := "10.0.9.0/24", gw_size := "t2.large" },
          prior := awsCfg }).2 ≠ none ∧
    (Update id okClient
        { cfg := { awsCfg with subnet := "10.0.9.0/24", gw_size := "t2.large" },
          prior := awsCfg }).1.calls = [] :=
  update_immutable_rejected id okClient
    { cfg := { awsCfg with subnet := "10.0.9.0/24", gw_size := "t2.large" }, prior := awsCfg }
    (by decide)

/-! ### Calls of the steps of Update -/

theorem updateGwSize_emits (client : Client) (d : ResourceData) :
    (updateGwSize client d).Emits (fun c => c.method = .UpdateGateway) := by
  unfold updateGwSize
  dsimp only
  repeat' first
    | apply emits_ite
    | apply emits_andThen
    | apply emits_callOrFail
    | apply emits_skip
  all_goals simp

theorem updateHa_emits (client : Client) (d : ResourceData) :
    (updateHa client d).Emits
      (fun c => c.method = .EnableHaTransitVpc ∨ c.method = .DeleteGateway) := by
  unfold updateHa updateHaBranches
  dsimp only
  repeat' first
    | apply emits_ite
    | apply emits_andThen
    | apply emits_callOrFail
    | apply emits_skip
  all_goals simp

theorem updateTags_emits (tagColon : List String → List String) (client : Client)
    (d : ResourceData) :
    (updateTags tagColon client d).Emits
      (fun c => c.method = .DeleteTags ∨ c.method = .AddTags) := by
  unfold updateTags updateTagCalls
  dsimp only
  repeat' first
    | apply emits_ite
    | apply emits_andThen
    | apply emits_callOrFail
    | apply emits_skip
  all_goals simp

theorem updateHaGwSize_emits (client : Client) (d : ResourceData) :
    (updateHaGwSize client d).Emits
      (fun c => c.method = .GetGateway ∨ c.method = .UpdateGateway) := by
  unfold updateHaGwSize
  dsimp only
  split
  · intro w
    dsimp only
    split
    · split <;> exact ⟨[Call.GetGateway _], rfl, by simp, rfl⟩
    · split
      · exact ⟨[Call.GetGateway _], rfl, by simp, rfl⟩
      · exact emits_at _ _ (emits_callOrFail _ _ _ _ (by simp)) w _ [Call.GetGateway _]
          (by simp) rfl rfl
  · exact emits_skip _ _

theorem updateTail_emits (client : Client) (d : ResourceData) :
    (updateTail client d).Emits
      (fun c => c.method = .AttachTransitGWForHybrid ∨ c.method = .DetachTransitGWForHybrid ∨
        c.method = .EnableConnectedTransit ∨ c.method = .DisableConnectedTransit ∨
        c.method = .GetGateway ∨ c.method = .UpdateGateway ∨
        c.method = .EnableSNat ∨ c.method = .DisableSNat ∨
        c.method = .EnableGatewayFireNetInterfaces ∨
        c.method = .DisableGatewayFireNetInterfaces) := by
  unfold updateTail
  apply emits_andThen
  · unfold updateHybrid
    dsimp only
    repeat' first
      | apply emits_ite
      | apply emits_callOrFail
      | apply emits_skip
    all_goals simp
  apply emits_andThen
  · unfold updateConnected
    dsimp only
    repeat' first
      | apply emits_ite
      | apply emits_callOrFail
      | apply emits_skip
    all_goals simp
  apply emits_andThen
  · exact emits_mono _ _ _ (updateHaGwSize_emits client d)
      (fun c hc => by rcases hc with h | h <;> simp [h])
  apply emits_andThen
  · unfold updateSnat
    dsimp only
    repeat' first
      | apply emits_ite
      | apply emits_callOrFail
      | apply emits_skip
    all_goals simp
  · unfold updateFirenet
    dsimp only
    repeat' first
      | apply emits_ite
      | apply emits_callOrFail
      | apply emits_skip
    all_goals simp

theorem updateSteps_eq (tagColon : List String → List String) (client : Client)
    (d : ResourceData) :
    updateSteps tagColon client d =
      (updateImmutable d).andThen ((updateGwSize client d).andThen ((updateHa client d).andThen
        ((updateTags tagColon client d).andThen (updateTail client d)))) := rfl

/-! ### Update when the calls succeed -/

theorem andThen_next (s t : Block) (w w1 : World) (h : s w = (w1, .next)) :
    (s.andThen t) w = t w1 := by
  unfold Block.andThen
  rw [h]

theorem Difference_eq_filter (a b : List String) :
    Difference a b = a.filter (fun x => x ∉ b) := by
  unfold Difference
  congr 1
  funext x
  simp

theorem Difference_ne_nil (a b : List String) :
    (Difference a b).length ≠ 0 ↔ ∃ x ∈ a, x ∉ b := by
  rw [Difference_eq_filter]
  simp [List.filter_eq_nil_iff]

theorem passes_skip : Block.Passes (fun w => (w, Flow.next)) := fun w => ⟨w, rfl⟩

theorem passes_callOrFail (c : Call) (r : Option GoError) (wrap : GoError → String)
    (h : r = none) : Block.Passes (callOrFail c r wrap) := by
  intro w
  subst h
  exact ⟨w.log c, rfl⟩

theorem passes_andThen (s t : Block) (hs : s.Passes) (ht : t.Passes) :
    (s.andThen t).Passes := by
  intro w
  obtain ⟨w1, h1⟩ := hs w
  obtain ⟨w2, h2⟩ := ht w1
  exact ⟨w2, by rw [andThen_next s t w w1 h1, h2]⟩

theorem passes_ite (c : Prop) [Decidable c] (s t : Block)
    (hs : s.Passes) (ht : t.Passes) : Block.Passes (if c then s else t) := by
  split <;> assumption

/-- A block that falls through, seen through its call log. -/
theorem passes_emits (P : Call → Prop) (B : Block) (hp : B.Passes) (he : B.Emits P)
    (w : World) :
    ∃ w' l, B w = (w', .next) ∧ w'.calls = w.calls ++ l ∧ (∀ c ∈ l, P c) ∧
      w'.reads = w.reads := by
  obtain ⟨w', hw'⟩ := hp w
  obtain ⟨l, h₁, h₂, h₃⟩ := he w
  rw [hw'] at h₁ h₃
  exact ⟨w', l, hw', h₁, h₂, h₃⟩

theorem updateGwSize_passes (client : Client) (d : ResourceData)
    (hU : ∀ g, client.UpdateGateway g = none) : (updateGwSize client d).Passes := by
  unfold updateGwSize
  dsimp only
  repeat' first
    | apply passes_ite
    | apply passes_callOrFail
    | apply passes_skip
  all_goals simp [hU]

theorem updateHa_passes (client : Client) (d : ResourceData)
    (hE : ∀ g, client.EnableHaTransitVpc g = none) (hD : ∀ g, client.DeleteGateway g = none)
    (hr : ¬ updateHaRejected d) : (updateHa client d).Passes := by
  unfold updateHaRejected at hr
  unfold updateHa updateHaBranches
  dsimp only
  split_ifs
  · exact absurd ⟨‹_›, ‹_›, ‹_›⟩ hr
  all_goals
    repeat' first
      | apply passes_ite
      | apply passes_andThen
      | apply passes_callOrFail
      | apply passes_skip
  all_goals simp [hE, hD]

theorem updateHa_removed (client : Client) (d : ResourceData)
    (hD : ∀ g, client.DeleteGateway g = none) (hr : ¬ updateHaRejected d)
    (ho : d.prior.ha_subnet ≠ "") (hn : d.cfg.ha_subnet = "") (w : World) :
    updateHa client d w =
      ({ w with calls := w.calls ++
          [Call.DeleteGateway { CloudType := d.cfg.cloud_type,
                                GwName := d.cfg.gw_name ++ "-hagw" }] }, .next) := by
  unfold updateHaRejected at hr
  have hchg : d.prior.ha_subnet ≠ d.cfg.ha_subnet := by rw [hn]; exact ho
  unfold updateHa updateHaBranches
  cases hi : d.cfg.insane_mode
  · simp [hchg, ho, hn, callOrFail, hD, World.log]
  · have hz : d.cfg.ha_insane_mode_az ≠ "" := fun h => hr ⟨Or.inl hchg, hi, h⟩
    simp [hchg, ho, hn, hz, callOrFail, hD, World.log]

theorem updateTags_ok (tagColon : List String → List String) (client : Client)
    (d : ResourceData) (hA : ∀ t, client.AddTags t = none) (hD : ∀ t, client.DeleteTags t = none)
    (hct : d.cfg.cloud_type = 1) (hchg : d.prior.tag_list ≠ d.cfg.tag_list) (w : World) :
    updateTags tagColon client d w =
      ({ w with calls := w.calls ++
          ((if ∃ x ∈ d.prior.tag_list, x ∉ d.cfg.tag_list then
              [Call.DeleteTags
                { CloudType := 1, ResourceType := "gw", ResourceName := d.cfg.gw_name,
                  TagList := joinComma (tagColon
                    (d.prior.tag_list.filter (fun x => x ∉ d.cfg.tag_list))) }]
            else []) ++
           (if ∃ x ∈ d.cfg.tag_list, x ∉ d.prior.tag_list then
              [Call.AddTags
                { CloudType := 1, ResourceType := "gw", ResourceName := d.cfg.gw_name,
                  TagList := joinComma (tagColon
                    (d.cfg.tag_list.filter (fun x => x ∉ d.prior.tag_list))) }]
            else [])) }, .next) := by
  unfold updateTags updateTagCalls
  simp only [hct, hchg, ne_eq, not_false_eq_true, if_true, ExpandStringList,
    Difference_ne_nil, ← Difference_eq_filter]
  by_cases h₁ : ∃ x ∈ d.prior.tag_list, x ∉ d.cfg.tag_list <;>
    by_cases h₂ : ∃ x ∈ d.cfg.tag_list, x ∉ d.prior.tag_list <;>
    simp [h₁, h₂, Block.andThen, callOrFail, hA, hD, World.log]

/-! ### The log of Update -/

/-- Update ends with the steps' log, followed by the lookups of Read when no step
returned. -/
theorem update_finish (tagColon : List String → List String) (client : Client)
    (d : ResourceData) :
    ∃ l, (Update tagColon client d).1.calls =
        (updateSteps tagColon client d { d := d }).1.calls ++ l ∧
      ∀ c ∈ l, c.method = .GetGateway ∨ c.method = .GetGatewayDetail ∨ c.method = .GetTags := by
  unfold Update
  rcases updateSteps tagColon client d { d := d } with ⟨w, f⟩
  cases f with
  | ret e => exact ⟨[], by simp, by simp⟩
  | next =>
    obtain ⟨l, h₁, h₂, -⟩ := read_calls client w
    exact ⟨l, h₁, h₂⟩

/-- The log of Update around the tag step, when the steps before it go through. -/
theorem update_log_tags (tagColon : List String → List String) (client : Client)
    (d : ResourceData) (hct : d.cfg.cloud_type = 1) (him : ¬ immutableChanged d)
    (hchg : d.prior.tag_list ≠ d.cfg.tag_list) (hr : ¬ updateHaRejected d)
    (hok : client.ChangesSucceed) :
    ∃ pre post, (Update tagColon client d).1.calls =
        pre ++
          ((if ∃ x ∈ d.prior.tag_list, x ∉ d.cfg.tag_list then
              [Call.DeleteTags
                { CloudType := 1, ResourceType := "gw", ResourceName := d.cfg.gw_name,
                  TagList := joinComma (tagColon
                    (d.prior.tag_list.filter (fun x => x ∉ d.cfg.tag_list))) }]
            else []) ++
           (if ∃ x ∈ d.cfg.tag_list, x ∉ d.prior.tag_list then
              [Call.AddTags
                { CloudType := 1, ResourceType := "gw", ResourceName := d.cfg.gw_name,
                  TagList := joinComma (tagColon
                    (d.cfg.tag_list.filter (fun x => x ∉ d.prior.tag_list))) }]
            else [])) ++ post ∧
      (∀ c ∈ pre, c.method ≠ .DeleteTags ∧ c.method ≠ .AddTags) ∧
      (∀ c ∈ post, c.method ≠ .DeleteTags ∧ c.method ≠ .AddTags) := by
  obtain ⟨l₅, hfin, h₅⟩ := update_finish tagColon client d
  obtain ⟨w₁, l₁, hs₁, hc₁, h₁, -⟩ := passes_emits _ _
    (updateGwSize_passes client d (fun g => hok (.UpdateGateway g) rfl))
    (updateGwSize_emits client d) { d := d }
  obtain ⟨w₂, l₂, hs₂, hc₂, h₂, -⟩ := passes_emits _ _
    (updateHa_passes client d (fun g => hok (.EnableHaTransitVpc g) rfl)
      (fun g => hok (.DeleteGateway g) rfl) hr)
    (updateHa_emits client d) w₁
  have hs₃ := updateTags_ok tagColon client d (fun t => hok (.AddTags t) rfl)
    (fun t => hok (.DeleteTags t) rfl) hct hchg w₂
  obtain ⟨l₄, hc₄, h₄, -⟩ := updateTail_emits client d
    { w₂ with calls := w₂.calls ++
          ((if ∃ x ∈ d.prior.tag_list, x ∉ d.cfg.tag_list then
              [Call.DeleteTags
                { CloudType := 1, ResourceType := "gw", ResourceName := d.cfg.gw_name,
                  TagList := joinComma (tagColon
                    (d.prior.tag_list.filter (fun x => x ∉ d.cfg.tag_list))) }]
            else []) ++
           (if ∃ x ∈ d.cfg.tag_list, x ∉ d.prior.tag_list then
              [Call.AddTags
                { CloudType := 1, ResourceType := "gw", ResourceName := d.cfg.gw_name,
                  TagList := joinComma (tagColon
                    (d.cfg.tag_list.filter (fun x => x ∉ d.prior.tag_list))) }]
            else [])) }
  rw [updateSteps_eq, andThen_next _ _ _ _ (updateImmutable_unchanged d him _),
    andThen_next _ _ _ _ hs₁, andThen_next _ _ _ _ hs₂, andThen_next _ _ _ _ hs₃, hc₄] at hfin
  refine ⟨l₁ ++ l₂, l₄ ++ l₅, ?_, ?_, ?_⟩
  · rw [hfin, hc₂, hc₁]
    simp
  · intro c hc
    rcases List.mem_append.mp hc with h | h
    · simp [h₁ c h]
    · rcases h₂ c h with h | h <;> simp [h]
  · intro c hc
    rcases List.mem_append.mp hc with h | h
    · rcases h₄ c h with h | h | h | h | h | h | h | h | h | h <;> simp [h]
    · rcases h₅ c h with h | h | h <;> simp [h]

/-! ### Update: removing HA, changing tags (C5, C6) -/

theorem okClient_allSucceed (call : Call) : okClient.answer call = none := by
  cases call <;> rfl

theorem okClient_changesSucceed : okClient.ChangesSucceed :=
  fun call _ => okClient_allSucceed call

theorem noHaClient_changesSucceed : noHaClient.ChangesSucceed := by
  intro call h
  cases call <;> first
    | rfl
    | cases h

/-- C5, evaluated where the code departs from it: removing HA from an insane-mode
gateway (ha_subnet from "10.0.1.0/24" to "", ha_insane_mode_az emptied with it, no
immutable attribute changed, every remote call succeeding) makes Update return the
error of the `ha_insane_mode_az` check and issue no call, so no delete-entity call. -/
theorem update_remove_ha_insane_rejected :
    ¬ immutableChanged removeHaInsane ∧
    removeHaInsane.prior.ha_subnet ≠ "" ∧ removeHaInsane.cfg.ha_subnet = "" ∧
    (Update id okClient removeHaInsane).2 =
      some "ha_insane_mode_az needed if insane_mode is enabled and ha_subnet is set" ∧
    (Update id okClient removeHaInsane).1.calls = [] := by
  decide

/-- Outside that case the HA removal is as the spec says: when no immutable attribute
changes, ha_subnet goes from non-empty to empty, the HA step is not stopped by its
`ha_insane_mode_az` check and every state-changing call succeeds, Update issues exactly one
delete-entity call, on `gw_name ++ "-hagw"`, and no enable-HA call. -/
theorem update_ha_removed (tagColon : List String → List String) (client : Client)
    (d : ResourceData) (him : ¬ immutableChanged d) (ho : d.prior.ha_subnet ≠ "")
    (hn : d.cfg.ha_subnet = "") (hr : ¬ updateHaRejected d) (hok : client.ChangesSucceed) :
    (Update tagColon client d).1.calls.filter (fun c => c.method = .DeleteGateway) =
      [Call.DeleteGateway { CloudType := d.cfg.cloud_type, GwName := d.cfg.gw_name ++ "-hagw" }] ∧
    (Update tagColon client d).1.calls.countP (fun c => c.method = .EnableHaTransitVpc) = 0 := by
  obtain ⟨l₅, hfin, h₅⟩ := update_finish tagColon client d
  obtain ⟨w₁, l₁, hs₁, hc₁, h₁, -⟩ := passes_emits _ _
    (updateGwSize_passes client d (fun g => hok (.UpdateGateway g) rfl))
    (updateGwSize_emits client d) { d := d }
  have hs₂ := updateHa_removed client d (fun g => hok (.DeleteGateway g) rfl) hr ho hn w₁
  obtain ⟨l₄, hc₄, h₄, -⟩ := emits_andThen _ _ _
    (emits_mono _ (fun c => c.method ≠ .DeleteGateway ∧ c.method ≠ .EnableHaTransitVpc) _
      (updateTags_emits tagColon client d) (fun c hc => by rcases hc with h | h <;> simp [h]))
    (emits_mono _ (fun c => c.method ≠ .DeleteGateway ∧ c.method ≠ .EnableHaTransitVpc) _
      (updateTail_emits client d)
      (fun c hc => by rcases hc with h | h | h | h | h | h | h | h | h | h <;> simp [h]))
    { w₁ with calls := w₁.calls ++
        [Call.DeleteGateway { CloudType := d.cfg.cloud_type,
                              GwName := d.cfg.gw_name ++ "-hagw" }] }
  rw [updateSteps_eq, andThen_next _ _ _ _ (updateImmutable_unchanged d him _),
    andThen_next _ _ _ _ hs₁, andThen_next _ _ _ _ hs₂, hc₄] at hfin
  have e₁ : l₁.filter (fun c => c.method = .DeleteGateway) = [] :=
    List.filter_eq_nil_iff.mpr (fun c hcm => by simp [h₁ c hcm])
  have e₄ : l₄.filter (fun c => c.method = .DeleteGateway) = [] :=
    List.filter_eq_nil_iff.mpr (fun c hcm => by simpa using (h₄ c hcm).1)
  have e₅ : l₅.filter (fun c => c.method = .DeleteGateway) = [] :=
    List.filter_eq_nil_iff.mpr (fun c hcm => by rcases h₅ c hcm with h | h | h <;> simp [h])
  have c₁ : l₁.countP (fun c => c.method = .EnableHaTransitVpc) = 0 :=
    List.countP_eq_zero.mpr (fun c hcm => by simp [h₁ c hcm])
  have c₄ : l₄.countP (fun c => c.method = .EnableHaTransitVpc) = 0 :=
    List.countP_eq_zero.mpr (fun c hcm => by simpa using (h₄ c hcm).2)
  have c₅ : l₅.countP (fun c => c.method = .EnableHaTransitVpc) = 0 :=
    List.countP_eq_zero.mpr (fun c hcm => by rcases h₅ c hcm with h | h | h <;> simp [h])
  rw [hfin, hc₁]
  constructor
  · simp [List.filter_append, List.filter_cons, e₁, e₄, e₅]
  · simp [List.countP_append, List.countP_cons, c₁, c₄, c₅]

/-- C6 as stated fails: with cloud_type 1, no immutable attribute changed, every remote
call succeeding and the tags changed from `a:1, b:2` to `a:1, c:3`, an update that also
empties `ha_insane_mode_az` of an insane-mode gateway stops at the HA check and issues
no delete-tags call, although `b:2` is in the old list and not in the new one. -/
theorem update_tag_calls_counterexample :
    (∀ call, okClient.answer call = none) ∧
    retagInsane.cfg.cloud_type = 1 ∧ ¬ immutableChanged retagInsane ∧
    retagInsane.prior.tag_list ≠ retagInsane.cfg.tag_list ∧
    (∃ x ∈ retagInsane.prior.tag_list, x ∉ retagInsane.cfg.tag_list) ∧
    (Update id okClient retagInsane).1.calls = [] :=
  ⟨okClient_allSucceed, by decide, by decide, by decide, by decide, by decide⟩

/-- C6 (amended): for every Update with cloud_type 1, no immutable attribute changed,
tag_list changed from `old` to `new`, and the HA step not stopped by its local
`ha_insane_mode_az` check, when every state-changing remote call succeeds (the lookups
may answer anything, not-found included): the tag calls of Update are
a delete-tags call carrying the elements of `old` not in `new`, issued exactly when
there is such an element, followed by an add-tags call carrying the elements of `new`
not in `old`, issued exactly when there is such an element; each list is sent as the
comma-joined `TagListStrColon` of it. From `a:1, b:2` to `a:1, c:3` they are a
delete-tags call carrying `b:2` and then an add-tags call carrying `c:3`. -/
theorem update_tag_calls (tagColon : List String → List String) (client : Client)
    (d : ResourceData) (hct : d.cfg.cloud_type = 1) (him : ¬ immutableChanged d)
    (hchg : d.prior.tag_list ≠ d.cfg.tag_list) (hr : ¬ updateHaRejected d)
    (hok : client.ChangesSucceed) :
    ((Update tagColon client d).1.calls.filter
        (fun c => c.method = .DeleteTags ∨ c.method = .AddTags) =
      (if ∃ x ∈ d.prior.tag_list, x ∉ d.cfg.tag_list then
          [Call.DeleteTags
            { CloudType := 1, ResourceType := "gw", ResourceName := d.cfg.gw_name,
              TagList := joinComma (tagColon
                (d.prior.tag_list.filter (fun x => x ∉ d.cfg.tag_list))) }]
        else []) ++
      (if ∃ x ∈ d.cfg.tag_list, x ∉ d.prior.tag_list then
          [Call.AddTags
            { CloudType := 1, ResourceType := "gw", ResourceName := d.cfg.gw_name,
              TagList := joinComma (tagColon
                (d.cfg.tag_list.filter (fun x => x ∉ d.prior.tag_list))) }]
        else [])) ∧
    (d.prior.tag_list = ["a:1", "b:2"] → d.cfg.tag_list = ["a:1", "c:3"] →
      (Update tagColon client d).1.calls.filter
          (fun c => c.method = .DeleteTags ∨ c.method = .AddTags) =
        [Call.DeleteTags
           { CloudType := 1, ResourceType := "gw", ResourceName := d.cfg.gw_name,
             TagList := joinComma (tagColon ["b:2"]) },
         Call.AddTags
           { CloudType := 1, ResourceType := "gw", ResourceName := d.cfg.gw_name,
             TagList := joinComma (tagColon ["c:3"]) }]) := by
  obtain ⟨pre, post, hc, hpre, hpost⟩ := update_log_tags tagColon client d hct him hchg hr hok
  have hpre' : pre.filter (fun c => c.method = .DeleteTags ∨ c.method = .AddTags) = [] :=
    List.filter_eq_nil_iff.mpr (fun c hcm => by simpa using hpre c hcm)
  have hpost' : post.filter (fun c => c.method = .DeleteTags ∨ c.method = .AddTags) = [] :=
    List.filter_eq_nil_iff.mpr (fun c hcm => by simpa using hpost c hcm)
  have main : (Update tagColon client d).1.calls.filter
        (fun c => c.method = .DeleteTags ∨ c.method = .AddTags) =
      (if ∃ x ∈ d.prior.tag_list, x ∉ d.cfg.tag_list then
          [Call.DeleteTags
            { CloudType := 1, ResourceType := "gw", ResourceName := d.cfg.gw_name,
              TagList := joinComma (tagColon
                (d.prior.tag_list.filter (fun x => x ∉ d.cfg.tag_list))) }]
        else []) ++
      (if ∃ x ∈ d.cfg.tag_list, x ∉ d.prior.tag_list then
          [Call.AddTags
            { CloudType := 1, ResourceType := "gw", ResourceName := d.cfg.gw_name,
              TagList := joinComma (tagColon
                (d.cfg.tag_list.filter (fun x => x ∉ d.prior.tag_list))) }]
        else []) := by
    rw [hc]
    simp only [List.filter_append, hpre', hpost', List.nil_append, List.append_nil]
    split_ifs <;> simp [List.filter_cons]
  refine ⟨main, ?_⟩
  intro ho hn
  rw [main, ho, hn]
  simp +decide [List.filter_cons]

/-- Witness of `update_tag_calls`: the tags alone change from `a:1, b:2` to `a:1, c:3`,
on a controller without an HA gateway, whose answer to the HA lookup of the final Read is
not-found. -/
theorem update_tag_calls_witness :
    (Update id noHaClient retag).1.calls.filter
        (fun c => c.method = .DeleteTags ∨ c.method = .AddTags) =
      [Call.DeleteTags
         { CloudType := 1, ResourceType := "gw", ResourceName := "transit", TagList := "b:2" },
       Call.AddTags
         { CloudType := 1, ResourceType := "gw", ResourceName := "transit", TagList := "c:3" }] :=
  (update_tag_calls id noHaClient retag (by decide) (by decide) (by decide) (by decide)
    noHaClient_changesSucceed).2 (by decide) (by decide)

/-! ### Read: the lookup of the primary gateway (C8) -/

theorem readRequest_eq (d : ResourceData) :
    ({ AccountName := (readImportName d).cfg.account_name,
       GwName := (readImportName d).cfg.gw_name } : Gateway) = readRequest d := by
  unfold readImportName readRequest
  split <;> simp [*]

theorem readImportName_id (d : ResourceData) : (readImportName d).id = d.id := by
  unfold readImportName
  split <;> rfl

/-- C8: if the get-entity call for the primary gateway answers not-found, Read clears the
id, returns no error and issues no further call; if it answers any other error, Read
returns an error and leaves the id as it was. -/
theorem read_primary_lookup_fails (client : Client) (d : ResourceData) :
    (client.GetGateway (readRequest d) = .error GoError.ErrNotFound →
      (Read client { d := d }).1.d.id = "" ∧ (Read client { d := d }).2 = none ∧
      (Read client { d := d }).1.calls = [Call.GetGateway (readRequest d)]) ∧
    (∀ e, e ≠ GoError.ErrNotFound → client.GetGateway (readRequest d) = .error e →
      (Read client { d := d }).2 ≠ none ∧ (Read client { d := d }).1.d.id = d.id ∧
      (Read client { d := d }).1.calls = [Call.GetGateway (readRequest d)]) := by
  constructor
  · intro h
    unfold Read
    simp only [World.setD, readRequest_eq, Block.andThen, readPrimary, h, World.log]
    simp
  · intro e he h
    unfold Read
    simp only [World.setD, readRequest_eq, Block.andThen, readPrimary, h, World.log]
    simp [he, readImportName_id]

/-! ### Read as a function of the resource data -/

theorem readImportName_idem (d : ResourceData) :
    readImportName (readImportName d) = readImportName d := by
  unfold readImportName
  by_cases h : d.cfg.gw_name = ""
  · by_cases h' : d.id = "" <;> simp [h, h']
  · simp [h]

theorem readImportName_clear (d : ResourceData) :
    readImportName { readImportName d with id := "" } = { readImportName d with id := "" } := by
  unfold readImportName
  by_cases h : d.cfg.gw_name = ""
  · by_cases h' : d.id = "" <;> simp [h, h']
  · simp [h]

theorem readRequest_import (d : ResourceData) :
    readRequest (readImportName d) = readRequest d := by
  rw [← readRequest_eq, readImportName_idem, readRequest_eq]

theorem readRequest_clear (d : ResourceData) :
    readRequest { readImportName d with id := "" } = readRequest d := by
  rw [← readRequest_eq, readImportName_clear, readRequest_eq]

/-- Read when the primary lookup fails. -/
theorem read_lookup_error (client : Client) (w : World) (e : GoError)
    (h : client.GetGateway (readRequest w.d) = .error e) :
    (Read client w).1.d =
      (if e = GoError.ErrNotFound then { readImportName w.d with id := "" }
       else readImportName w.d) ∧
    (Read client w).2 =
      (if e = GoError.ErrNotFound then none
       else some ("couldn't find Aviatrix Transit Gateway: " ++ e.Error)) := by
  unfold Read
  simp only [World.setD, readRequest_eq, Block.andThen, readPrimary, h, World.log]
  by_cases he : e = GoError.ErrNotFound <;> simp [he]

/-- The attributes Read sets from the primary gateway, field by field. -/
theorem readGatewayFields_eq (cfg : Config) (gw : Gateway) :
    readGatewayFields cfg gw =
      { cfg with
        cloud_type := gw.CloudType, account_name := gw.AccountName, gw_name := gw.GwName,
        subnet := gw.VpcNet,
        vpc_id := if gw.CloudType = 1 then splitTildeFirst gw.VpcID
                  else if gw.CloudType = 8 then gw.VpcID else cfg.vpc_id,
        allocate_new_eip := if gw.CloudType = 1 then gw.AllocateNewEipRead
                            else if gw.CloudType = 8 then true else cfg.allocate_new_eip,
        eip := gw.PublicIP, vpc_reg := gw.VpcRegion, gw_size := gw.GwSize,
        enable_snat := decide (gw.EnableNat = "yes"),
        enable_hybrid_connection := if gw.CloudType = 1 then gw.EnableHybridConnection else false,
        connected_transit := decide (gw.ConnectedTransit = "yes"),
        insane_mode := decide (gw.InsaneMode = "yes"),
        insane_mode_az := if gw.InsaneMode = "yes" then gw.GatewayZone else "" } := by
  unfold readGatewayFields
  dsimp only
  by_cases h1 : gw.CloudType = 1 <;> by_cases h8 : gw.CloudType = 8 <;>
    by_cases hn : gw.EnableNat = "yes" <;> by_cases hc : gw.ConnectedTransit = "yes" <;>
    by_cases hi : gw.InsaneMode = "yes" <;> cases ha : gw.AllocateNewEipRead <;>
    simp [h1, h8, hn, hc, hi, ha]

theorem Difference_self (a : List String) : Difference a a = [] := by
  rw [Difference_eq_filter]
  simp [List.filter_eq_nil_iff]

/-- The request of a second Read, after a first one found `gw`. -/
theorem readRequest_found (d : ResourceData) (gw : Gateway) (cfg : Config)
    (hecho : gw.GwName = (readRequest d).GwName) (ha : cfg.account_name = gw.AccountName)
    (hn : cfg.gw_name = gw.GwName) :
    readImportName { readImportName d with cfg := cfg } = { readImportName d with cfg := cfg } ∧
    readRequest { readImportName d with cfg := cfg } =
      { AccountName := gw.AccountName, GwName := gw.GwName } := by
  unfold readRequest at hecho ⊢
  unfold readImportName
  by_cases h : d.cfg.gw_name = ""
  · by_cases h' : d.id = ""
    · simp only [h, h', if_true] at hecho ⊢
      simp [hn, hecho, ha]
      cases cfg
      simp_all
    · simp only [h, h', if_true] at hecho ⊢
      simp [hn, hecho, ha, h']
  · simp only [h, if_false] at hecho ⊢
    simp [hn, hecho, ha, h]

theorem tagListStr_eq (l : List String) :
    (if l ≠ [] then ExpandStringList l else []) = l := by
  unfold ExpandStringList
  split
  · rfl
  · rename_i h
    simp at h
    exact h.symm

theorem readHa_data (client : Client) (w : World) :
    ((readHa client w).1.d, (readHa client w).2) =
      ((readHaData client w.d).1, Flow.ret (readHaData client w.d).2) := by
  unfold readHa readHaData
  simp only [World.log, World.setD]
  rcases client.GetGateway
      { AccountName := w.d.cfg.account_name, GwName := w.d.cfg.gw_name ++ "-hagw" } with e | g
  · by_cases he : e = GoError.ErrNotFound <;> simp [he]
  · by_cases hi : g.InsaneMode = "yes" <;> simp [hi]

theorem readHa_ret (client : Client) (w w' : World) (f : Flow)
    (h : readHa client w = (w', f)) :
    w'.d = (readHaData client w.d).1 ∧ f = Flow.ret (readHaData client w.d).2 := by
  have h' := readHa_data client w
  rw [h] at h'
  simp only [Prod.mk.injEq] at h'
  exact h'

theorem read_found_data (client : Client) (w : World) (gw : Gateway)
    (h1 : client.GetGateway (readRequest w.d) = .ok gw) :
    (Read client w).1.d =
      (readFoundData client gw (readRequest w.d).GwName (readImportName w.d)).1 ∧
    (Read client w).2 =
      (readFoundData client gw (readRequest w.d).GwName (readImportName w.d)).2 := by
  have hname : (readRequest w.d).GwName = (readImportName w.d).cfg.gw_name := by
    rw [← readRequest_eq]
  unfold Read readFoundData
  simp only [World.setD, readRequest_eq, Block.andThen, readPrimary, h1, World.log, readTags,
    tagListStr_eq, hname]
  rcases client.GetGatewayDetail gw with e | det
  · simp
  · simp only []
    by_cases hct : gw.CloudType = 1
    · simp only [hct, if_true]
      rcases client.GetTags
          ⟨1, "gw", (readGatewayFields (readImportName w.d).cfg gw).gw_name, ""⟩ with e | T
      · simp
      · simp only []
        by_cases hd : (Difference (readGatewayFields (readImportName w.d).cfg gw).tag_list T).length
              ≠ 0 ∨
            (Difference T (readGatewayFields (readImportName w.d).cfg gw).tag_list).length ≠ 0
        · simp only [hd, if_true]
          split <;> rename_i heq <;> obtain ⟨hd', he'⟩ := readHa_ret client _ _ _ heq
          · cases he'
          · cases he'
            exact ⟨hd', rfl⟩
        · simp only [hd, if_false]
          split <;> rename_i heq <;> obtain ⟨hd', he'⟩ := readHa_ret client _ _ _ heq
          · cases he'
          · cases he'
            exact ⟨hd', rfl⟩
    · simp only [hct, if_false]
      split <;> rename_i heq <;> obtain ⟨hd', he'⟩ := readHa_ret client _ _ _ heq
      · cases he'
      · cases he'
        exact ⟨hd', rfl⟩

/-- Reading the found gateway again changes nothing. -/
theorem readFoundData_twice (client : Client) (gw : Gateway) (name : String)
    (d : ResourceData) :
    readFoundData client gw name (readFoundData client gw name d).1 =
      readFoundData client gw name d := by
  unfold readFoundData readHaData
  simp only [readGatewayFields_eq]
  by_cases hct : gw.CloudType = 1 <;> by_cases hc8 : gw.CloudType = 8 <;>
  rcases h2 : client.GetGatewayDetail gw with e2 | det <;>
  rcases h4 : client.GetGateway ⟨0, gw.AccountName, gw.GwName ++ "-hagw", "", "", "", "", "",
        false, "", false, "", "", ""⟩ with e4 | haGw <;>
  rcases h3 : client.GetTags ⟨1, "gw", gw.GwName, ""⟩ with e3 | T <;>
  (try by_cases hd1 : Difference d.cfg.tag_list T = []) <;>
  (try by_cases hd2 : Difference T d.cfg.tag_list = []) <;>
  (try by_cases he : e4 = GoError.ErrNotFound) <;>
  simp [*, Difference_self]

/-- What reading the found gateway keeps and what it sets. -/
theorem readFoundData_shape (client : Client) (gw : Gateway) (name : String)
    (d : ResourceData) :
    (readFoundData client gw name d).1.id = d.id ∧
    (readFoundData client gw name d).1.prior = d.prior ∧
    (readFoundData client gw name d).1.cfg.account_name = gw.AccountName ∧
    (readFoundData client gw name d).1.cfg.gw_name = gw.GwName := by
  unfold readFoundData readHaData
  simp only [readGatewayFields_eq]
  by_cases hct : gw.CloudType = 1 <;>
  rcases h2 : client.GetGatewayDetail gw with e2 | det <;>
  rcases h4 : client.GetGateway ⟨0, gw.AccountName, gw.GwName ++ "-hagw", "", "", "", "", "",
        false, "", false, "", "", ""⟩ with e4 | haGw <;>
  rcases h3 : client.GetTags ⟨1, "gw", gw.GwName, ""⟩ with e3 | T <;>
  (try by_cases hd1 : Difference d.cfg.tag_list T = []) <;>
  (try by_cases hd2 : Difference T d.cfg.tag_list = []) <;>
  (try by_cases he : e4 = GoError.ErrNotFound) <;>
  simp [*]

/-! ### Read twice (C7) -/

/-- C7 (amended): against a controller that answers each request the same way every
time and answers get-entity consistently, running Read twice in succession leaves the
same id and the same attributes, and returns the same error, as running it once. -/
theorem read_twice (client : Client) (hc : client.Consistent) (w : World) :
    (Read client (Read client w).1).1.d = (Read client w).1.d ∧
    (Read client (Read client w).1).2 = (Read client w).2 := by
  rcases h1 : client.GetGateway (readRequest w.d) with e | gw
  · obtain ⟨hd, he⟩ := read_lookup_error client w e h1
    have hreq : readRequest (Read client w).1.d = readRequest w.d := by
      rw [hd]
      split
      · exact readRequest_clear w.d
      · exact readRequest_import w.d
    obtain ⟨hd', he'⟩ := read_lookup_error client (Read client w).1 e (by rw [hreq]; exact h1)
    refine ⟨?_, by rw [he', he]⟩
    rw [hd', hd]
    by_cases hnf : e = GoError.ErrNotFound
    · simp only [hnf, if_true]
      rw [readImportName_clear]
    · simp only [hnf, if_false]
      exact readImportName_idem w.d
  · obtain ⟨hecho, hc2⟩ := hc _ _ h1
    obtain ⟨hd, he⟩ := read_found_data client w gw h1
    obtain ⟨sid, sprior, sacct, sname⟩ :=
      readFoundData_shape client gw (readRequest w.d).GwName (readImportName w.d)
    have hshape : (Read client w).1.d =
        { readImportName w.d with cfg := (Read client w).1.d.cfg } := by
      rw [hd]
      rcases hr : (readFoundData client gw (readRequest w.d).GwName (readImportName w.d)).1
        with ⟨i, c, p⟩
      rw [hr] at sid sprior
      simp only at sid sprior
      rw [sid, sprior]
    obtain ⟨himp, hreq⟩ := readRequest_found w.d gw (Read client w).1.d.cfg hecho
      (by rw [hd]; exact sacct) (by rw [hd]; exact sname)
    rw [← hshape] at himp hreq
    obtain ⟨hd', he'⟩ := read_found_data client (Read client w).1 gw (by rw [hreq]; exact hc2)
    have hn : (readRequest (Read client w).1.d).GwName = (readRequest w.d).GwName := by
      rw [hreq, ← hecho]
    rw [himp, hn, hd, readFoundData_twice] at hd' he'
    exact ⟨by rw [hd', hd], by rw [he', he]⟩

/-! ### Instances -/

/-- Witness of `create_subnet_sent`: in insane mode the zone is appended to the subnet. -/
theorem create_subnet_sent_witness :
    (createGateway insaneCfg).Subnet = insaneCfg.subnet ++ "~~" ++ insaneCfg.insane_mode_az :=
  (create_subnet_sent id okClient { cfg := insaneCfg } (createGateway insaneCfg)
    (by decide)).1 rfl

/-- Witness of `create_call_counts`: without ha_subnet, on a controller that has no HA
gateway (the HA lookup of the final Read is answered not-found), Create issues no HA
call; with an HA gateway larger than the primary, Create resizes `transit-hagw`. -/
theorem create_call_counts_witness :
    ((Create id noHaClient { cfg := awsCfg }).1.calls.countP
        (fun c => c.method = .EnableHaTransitVpc) = 0 ∧
      (Create id noHaClient { cfg := awsCfg }).1.calls.countP
        (fun c => c.method = .UpdateGateway) = 0) ∧
    (Create id okClient { cfg := haLargeCfg }).1.calls.filter
        (fun c => c.method = .UpdateGateway) =
      if haLargeCfg.ha_subnet ≠ "" ∧ haLargeCfg.ha_gw_size ≠ haLargeCfg.gw_size then
        [Call.UpdateGateway { CloudType := haLargeCfg.cloud_type,
                              GwName := haLargeCfg.gw_name ++ "-hagw",
                              GwSize := haLargeCfg.ha_gw_size }]
      else [] :=
  ⟨(create_call_counts id noHaClient { cfg := awsCfg } (by decide)
      noHaClient_changesSucceed).2.2.1 rfl,
   (create_call_counts id okClient { cfg := haLargeCfg } (by decide)
      okClient_changesSucceed).2.2.2⟩

/-- Witness of `read_primary_lookup_fails`: the gateway is gone, Read clears the id. -/
theorem read_primary_lookup_fails_witness :
    (Read goneClient { d := { id := "transit", cfg := awsCfg } }).1.d.id = "" ∧
    (Read goneClient { d := { id := "transit", cfg := awsCfg } }).2 = none ∧
    (Read goneClient { d := { id := "transit", cfg := awsCfg } }).1.calls =
      [Call.GetGateway (readRequest { id := "transit", cfg := awsCfg })] :=
  (read_primary_lookup_fails goneClient { id := "transit", cfg := awsCfg }).1 rfl

/-- Witness of `create_reads_once`: a plain AWS gateway is created and read once. -/
theorem create_reads_once_witness :
    (Create id okClient { cfg := awsCfg }).1.reads = 1 :=
  (create_reads_once id okClient { cfg := awsCfg } (createGateway awsCfg) (by decide) rfl).1

theorem okClient_consistent : okClient.Consistent := by
  intro req gw h
  simp only [okClient, Except.ok.injEq] at h
  subst h
  exact ⟨rfl, rfl⟩

/-- C7 as stated fails: `driftClient` answers every request the same way each time, yet
after an import the first Read keeps the id `transit` (and stores the account the
controller reported) while the second Read, now asking under that account, is answered
not-found and clears the id. -/
theorem read_twice_counterexample :
    (Read driftClient { d := importData }).1.d.id = "transit" ∧
    (Read driftClient (Read driftClient { d := importData }).1).1.d.id = "" ∧
    (Read driftClient (Read driftClient { d := importData }).1).1.d ≠
      (Read driftClient { d := importData }).1.d := by
  decide

/-- Witness of `read_twice`: an import read twice from a consistent controller. -/
theorem read_twice_witness :
    (Read okClient (Read okClient { d := importData }).1).1.d =
      (Read okClient { d := importData }).1.d :=
  (read_twice okClient okClient_consistent { d := importData }).1

/-! ### Read decodes what Create encodes (C12) -/

/-- The flags Read stores when it finds the primary gateway `gw`. -/
theorem readFoundData_flags (client : Client) (gw : Gateway) (name : String)
    (d : ResourceData) :
    (readFoundData client gw name d).1.cfg.enable_snat = decide (gw.EnableNat = "yes") ∧
    (readFoundData client gw name d).1.cfg.connected_transit =
      decide (gw.ConnectedTransit = "yes") ∧
    (readFoundData client gw name d).1.cfg.insane_mode = decide (gw.InsaneMode = "yes") := by
  unfold readFoundData readHaData
  simp only [readGatewayFields_eq]
  by_cases hct : gw.CloudType = 1 <;>
  rcases h2 : client.GetGatewayDetail gw with e2 | det <;>
  rcases h4 : client.GetGateway ⟨0, gw.AccountName, gw.GwName ++ "-hagw", "", "", "", "", "",
        false, "", false, "", "", ""⟩ with e4 | haGw <;>
  rcases h3 : client.GetTags ⟨1, "gw", gw.GwName, ""⟩ with e3 | T <;>
  (try by_cases hd1 : Difference d.cfg.tag_list T = []) <;>
  (try by_cases hd2 : Difference T d.cfg.tag_list = []) <;>
  (try by_cases he : e4 = GoError.ErrNotFound) <;>
  simp [*]

/-- C12 as stated fails for insane_mode: Create of an insane-mode gateway writes `on`,
and a Read to which the controller reports that same string `on` in the insane mode
field stores insane_mode = false. -/
theorem read_decodes_created_flags_counterexample :
    Call.LaunchTransitVpc (createGateway insaneCfg) ∈
      (Create id okClient { cfg := insaneCfg }).1.calls ∧
    insaneCfg.insane_mode = true ∧ (createGateway insaneCfg).InsaneMode = "on" ∧
    insaneOnClient.GetGateway (readRequest { id := "transit", cfg := insaneCfg }) =
      .ok { CloudType := 1, AccountName := "acct", GwName := "transit",
            InsaneMode := "on", GatewayZone := "us-east-1a" } ∧
    (Read insaneOnClient { d := { id := "transit", cfg := insaneCfg } }).1.d.cfg.insane_mode
      = false :=
  ⟨by decide, by decide, by decide, rfl, by decide⟩

/-- C12 (amended): let `g` be the request of Create's create-primary-entity call for the
configuration `d.cfg`, and let a Read find a gateway `gw`. If the controller reports in
`gw.EnableNat` the string Create wrote for enable_snat, Read stores the declared
enable_snat; likewise for connected_transit. For insane_mode the strings differ: Create
writes `on` / `off`, Read stores true exactly when the controller reports `yes`; so if
the controller reports the string Create wrote, Read stores the declared value when
that is false, and false in every case. -/
theorem read_decodes_created_flags (tagColon : List String → List String) (client : Client)
    (d : ResourceData) (g : TransitVpc)
    (hg : Call.LaunchTransitVpc g ∈ (Create tagColon client d).1.calls)
    (controller : Client) (w : World) (gw : Gateway)
    (hgw : controller.GetGateway (readRequest w.d) = .ok gw) :
    (gw.EnableNat = g.EnableNAT →
      (Read controller w).1.d.cfg.enable_snat = d.cfg.enable_snat) ∧
    (gw.ConnectedTransit = g.ConnectedTransit →
      (Read controller w).1.d.cfg.connected_transit = d.cfg.connected_transit) ∧
    (gw.InsaneMode = g.InsaneMode → d.cfg.insane_mode = false →
      (Read controller w).1.d.cfg.insane_mode = d.cfg.insane_mode) ∧
    (gw.InsaneMode = g.InsaneMode → (Read controller w).1.d.cfg.insane_mode = false) ∧
    ((Read controller w).1.d.cfg.insane_mode = true ↔ gw.InsaneMode = "yes") := by
  obtain ⟨-, rfl⟩ := createRequest_ok d.cfg g (create_launch_mem tagColon client d g hg)
  obtain ⟨hd, -⟩ := read_found_data controller w gw hgw
  obtain ⟨hs, hc, hi⟩ :=
    readFoundData_flags controller gw (readRequest w.d).GwName (readImportName w.d)
  rw [hd, hs, hc, hi, createGateway_eq]
  refine ⟨?_, ?_, ?_, ?_, ?_⟩
  · intro h
    cases hb : d.cfg.enable_snat <;> simp [h, hb]
  · intro h
    cases hb : d.cfg.connected_transit <;> simp [h, hb]
  · intro h hb
    simp [h, hb]
  · intro h
    cases hb : d.cfg.insane_mode <;> simp [h, hb]
  · simp

/-- Instance of `read_decodes_created_flags`: SNAT declared and reported as `yes`. -/
theorem read_decodes_created_flags_witness :
    (Read snatClient { d := { id := "transit", cfg := snatCfg } }).1.d.cfg.enable_snat =
      snatCfg.enable_snat :=
  (read_decodes_created_flags id okClient { cfg := snatCfg } (createGateway snatCfg)
    (by decide) snatClient { d := { id := "transit", cfg := snatCfg } }
    { CloudType := 1, AccountName := "acct", GwName := "transit", EnableNat := "yes" }
    rfl).1 rfl

/-! ### Update: when HA is enabled (C13) -/

/-- C13, evaluated where the code departs from it: `ha_subnet` is empty before and after
the update and only `ha_insane_mode_az` changes, yet Update issues an enable-HA call,
with an empty HA subnet. -/
theorem update_enables_ha_without_subnet :
    setHaZoneOnly.prior.ha_subnet = "" ∧ setHaZoneOnly.cfg.ha_subnet = "" ∧
    ¬ immutableChanged setHaZoneOnly ∧
    Call.EnableHaTransitVpc { GwName := "transit", HASubnet := "", Eip := "" } ∈
      (Update id okClient setHaZoneOnly).1.calls := by
  decide

theorem updateImmutable_emits (P : Call → Prop) (d : ResourceData) :
    (updateImmutable d).Emits P := by
  intro w
  by_cases h : immutableChanged d
  · obtain ⟨msg, hmsg⟩ := updateImmutable_changed d h w
    rw [hmsg]
    exact ⟨[], by simp, by simp, rfl⟩
  · rw [updateImmutable_unchanged d h w]
    exact ⟨[], by simp, by simp, rfl⟩

theorem updateHa_emits_enable (client : Client) (d : ResourceData) :
    (updateHa client d).Emits
      (fun c => c.method = .EnableHaTransitVpc →
        d.cfg.ha_subnet ≠ "" ∨
          (d.prior.ha_subnet = "" ∧ d.prior.ha_insane_mode_az ≠ d.cfg.ha_insane_mode_az)) := by
  unfold updateHa updateHaBranches
  dsimp only
  split_ifs with hchg hi hz ho hn ho' hn' <;>
    (repeat' first
      | apply emits_andThen
      | apply emits_callOrFail
      | apply emits_skip) <;>
    simp <;> by_contra <;> simp_all

/-- Outside that case the invariant holds: an enable-HA call of Update means that the new
`ha_subnet` is non-empty, or that `ha_subnet` was empty and `ha_insane_mode_az` changed. -/
theorem update_enable_ha_only_if (tagColon : List String → List String) (client : Client)
    (d : ResourceData) (g : TransitVpc)
    (hg : Call.EnableHaTransitVpc g ∈ (Update tagColon client d).1.calls) :
    d.cfg.ha_subnet ≠ "" ∨
      (d.prior.ha_subnet = "" ∧ d.prior.ha_insane_mode_az ≠ d.cfg.ha_insane_mode_az) := by
  obtain ⟨l₅, hfin, h₅⟩ := update_finish tagColon client d
  have hsteps : (updateSteps tagColon client d).Emits
      (fun c => c.method = .EnableHaTransitVpc →
        d.cfg.ha_subnet ≠ "" ∨
          (d.prior.ha_subnet = "" ∧ d.prior.ha_insane_mode_az ≠ d.cfg.ha_insane_mode_az)) := by
    rw [updateSteps_eq]
    apply emits_andThen
    · exact updateImmutable_emits _ d
    apply emits_andThen
    · exact emits_mono _ _ _ (updateGwSize_emits client d) (fun c hc => by simp [hc])
    apply emits_andThen
    · exact updateHa_emits_enable client d
    apply emits_andThen
    · exact emits_mono _ _ _ (updateTags_emits tagColon client d)
        (fun c hc => by rcases hc with h | h <;> simp [h])
    · exact emits_mono _ _ _ (updateTail_emits client d)
        (fun c hc => by rcases hc with h | h | h | h | h | h | h | h | h | h <;> simp [h])
  obtain ⟨l, hl, hP, -⟩ := hsteps { d := d }
  rw [hfin, hl] at hg
  simp only [List.nil_append, List.mem_append] at hg
  rcases hg with hg | hg
  · exact hP _ hg rfl
  · rcases h₅ _ hg with h | h | h <;> simp at h

/-! ### Failing calls of Update (C11) -/

theorem surfaced_ok (client : Client) (R : Call → GoError → Option String → Prop) (l : List Call) (f : Flow)
    (h : ∀ c ∈ l, client.answer c = none) : Surfaced client R l f := Or.inl h

theorem surfaced_fail (client : Client) (R : Call → GoError → Option String → Prop) (pre : List Call)
    (c : Call) (e : GoError) (r : Option String)
    (hpre : ∀ x ∈ pre, client.answer x = none) (hc : client.answer c = some e)
    (hR : R c e r) :
    Surfaced client R (pre ++ [c]) (.ret r) :=
  Or.inr ⟨pre, c, e, r, rfl, hpre, hc, rfl, hR⟩

theorem surfaced_append (client : Client) (R : Call → GoError → Option String → Prop) (l₁ l₂ : List Call)
    (f : Flow) (h₁ : ∀ c ∈ l₁, client.answer c = none) (h₂ : Surfaced client R l₂ f) :
    Surfaced client R (l₁ ++ l₂) f := by
  rcases h₂ with h | ⟨pre, c, e, r, hl, hpre, hc, hf, hX⟩
  · left
    intro c hc
    rcases List.mem_append.mp hc with h' | h'
    · exact h₁ c h'
    · exact h c h'
  · right
    refine ⟨l₁ ++ pre, c, e, r, by rw [hl, List.append_assoc], ?_, hc, hf, hX⟩
    intro x hx
    rcases List.mem_append.mp hx with h' | h'
    · exact h₁ x h'
    · exact hpre x h'

theorem surfaced_next (client : Client) (R : Call → GoError → Option String → Prop) (l : List Call)
    (h : Surfaced client R l .next) : ∀ c ∈ l, client.answer c = none := by
  rcases h with h | ⟨_, _, _, _, _, _, _, hf, _⟩
  · exact h
  · cases hf

/-- Reading a failed call off `Surfaced`: it is the last call, the ones before it
succeeded, and the function returned. -/
theorem surfaced_failed (client : Client) (R : Call → GoError → Option String → Prop) (l : List Call)
    (f : Flow) (h : Surfaced client R l f) (c : Call) (e : GoError) (hc : c ∈ l)
    (he : client.answer c = some e) :
    ∃ pre r, l = pre ++ [c] ∧ (∀ x ∈ pre, client.answer x = none) ∧ f = .ret r ∧
      R c e r := by
  rcases h with h | ⟨pre, c', e', r, hl, hpre, hc', hf, hX⟩
  · rw [h c hc] at he
    cases he
  · rw [hl] at hc
    rcases List.mem_append.mp hc with h' | h'
    · rw [hpre c h'] at he
      cases he
    · have hcc : c = c' := by simpa using h'
      subst hcc
      rw [hc'] at he
      cases he
      exact ⟨pre, r, hl, hpre, hf, hX⟩

theorem surfaces_skip (client : Client) (R : Call → GoError → Option String → Prop) (f : Flow) :
    Block.Surfaces (fun w => (w, f)) client R :=
  fun w => ⟨[], by simp, surfaced_ok client R [] f (by simp)⟩

theorem surfaces_callOrFail (client : Client) (R : Call → GoError → Option String → Prop) (c : Call)
    (r : Option GoError) (wrap : GoError → String) (hr : r = client.answer c)
    (hw : ∀ e, r = some e → R c e (some (wrap e))) :
    (callOrFail c r wrap).Surfaces client R := by
  intro w
  cases hr' : r with
  | none =>
    refine ⟨[c], by simp [callOrFail, World.log], surfaced_ok client R _ _ ?_⟩
    intro x hx
    have hxc : x = c := by simpa using hx
    rw [hxc, ← hr, hr']
  | some e =>
    refine ⟨[c], by simp [callOrFail, World.log], ?_⟩
    exact surfaced_fail client R [] c e (some (wrap e)) (by simp) (by rw [← hr, hr'])
      (hw e hr')

theorem surfaces_andThen (client : Client) (R : Call → GoError → Option String → Prop) (s t : Block)
    (hs : s.Surfaces client R) (ht : t.Surfaces client R) :
    (s.andThen t).Surfaces client R := by
  intro w
  obtain ⟨l₁, h₁, S₁⟩ := hs w
  unfold Block.andThen
  rcases hsw : s w with ⟨w₁, f₁⟩
  rw [hsw] at h₁ S₁
  cases f₁ with
  | next =>
    obtain ⟨l₂, h₂, S₂⟩ := ht w₁
    refine ⟨l₁ ++ l₂, ?_, surfaced_append client R _ _ _ (surfaced_next client R l₁ S₁) S₂⟩
    dsimp only at h₁ ⊢
    rw [h₂, h₁, List.append_assoc]
  | ret e => exact ⟨l₁, h₁, S₁⟩

theorem surfaces_ite (client : Client) (R : Call → GoError → Option String → Prop) (c : Prop) [Decidable c]
    (s t : Block) (hs : s.Surfaces client R) (ht : t.Surfaces client R) :
    Block.Surfaces (if c then s else t) client R := by
  split <;> assumption

/-- A block that surfaces failures does so after a prefix of calls that succeeded. -/
theorem surfaces_at (client : Client) (R : Call → GoError → Option String → Prop) (B : Block)
    (h : B.Surfaces client R) (w w' : World) (pre : List Call)
    (hw : w'.calls = w.calls ++ pre) (hpre : ∀ c ∈ pre, client.answer c = none) :
    ∃ l, (B w').1.calls = w.calls ++ l ∧ Surfaced client R l (B w').2 := by
  obtain ⟨l, h₁, S⟩ := h w'
  exact ⟨pre ++ l, by rw [h₁, hw, List.append_assoc], surfaced_append client R _ _ _ hpre S⟩

theorem answer_GetGateway_error (client : Client) (g : Gateway) (e : GoError)
    (h : client.GetGateway g = .error e) : client.answer (.GetGateway g) = some e := by
  simp [Client.answer, h]

theorem answer_GetGateway_ok (client : Client) (g gw : Gateway)
    (h : client.GetGateway g = .ok gw) : client.answer (.GetGateway g) = none := by
  simp [Client.answer, h]

theorem answer_GetGatewayDetail_error (client : Client) (g : Gateway) (e : GoError)
    (h : client.GetGatewayDetail g = .error e) :
    client.answer (.GetGatewayDetail g) = some e := by
  simp [Client.answer, h]

theorem answer_GetGatewayDetail_ok (client : Client) (g : Gateway) (gd : GatewayDetail)
    (h : client.GetGatewayDetail g = .ok gd) : client.answer (.GetGatewayDetail g) = none := by
  simp [Client.answer, h]

theorem answer_GetTags_error (client : Client) (t : Tags) (e : GoError)
    (h : client.GetTags t = .error e) : client.answer (.GetTags t) = some e := by
  simp [Client.answer, h]

theorem answer_GetTags_ok (client : Client) (t : Tags) (l : List String)
    (h : client.GetTags t = .ok l) : client.answer (.GetTags t) = none := by
  simp [Client.answer, h]

theorem updateImmutable_surfaces (client : Client)
    (R : Call → GoError → Option String → Prop) (d : ResourceData) :
    (updateImmutable d).Surfaces client R := by
  intro w
  by_cases h : immutableChanged d
  · obtain ⟨msg, hmsg⟩ := updateImmutable_changed d h w
    rw [hmsg]
    exact ⟨[], by simp, surfaced_ok client R [] _ (by simp)⟩
  · rw [updateImmutable_unchanged d h w]
    exact ⟨[], by simp, surfaced_ok client R [] _ (by simp)⟩

theorem updateGwSize_surfaces (client : Client) (d : ResourceData) :
    (updateGwSize client d).Surfaces client (updateReports d) := by
  unfold updateGwSize
  dsimp only
  repeat' first
    | apply surfaces_ite
    | apply surfaces_andThen
    | apply surfaces_callOrFail
    | apply surfaces_skip
  all_goals first
    | rfl
    | exact fun e _ => Or.inr (Or.inr ⟨by simp, _, rfl⟩)

theorem updateHa_surfaces (client : Client) (d : ResourceData) :
    (updateHa client d).Surfaces client (updateReports d) := by
  unfold updateHa updateHaBranches
  dsimp only
  split_ifs with hchg hi hz ho hn ho' hn' <;>
    (repeat' first
      | apply surfaces_andThen
      | apply surfaces_callOrFail
      | apply surfaces_skip) <;>
    first
      | rfl
      | exact fun e _ => Or.inr (Or.inr ⟨by simp, _, rfl⟩)
      | exact fun e _ => Or.inr (Or.inl ⟨rfl, ‹_›, ‹_›⟩)

theorem updateTags_surfaces (tagColon : List String → List String) (client : Client)
    (d : ResourceData) :
    (updateTags tagColon client d).Surfaces client (updateReports d) := by
  unfold updateTags updateTagCalls
  dsimp only
  repeat' first
    | apply surfaces_ite
    | apply surfaces_andThen
    | apply surfaces_callOrFail
    | apply surfaces_skip
  all_goals first
    | rfl
    | exact fun e _ => Or.inr (Or.inr ⟨by simp, _, rfl⟩)

theorem updateHaGwSize_surfaces (client : Client) (d : ResourceData) :
    (updateHaGwSize client d).Surfaces client (updateReports d) := by
  unfold updateHaGwSize
  dsimp only
  split
  · intro w
    dsimp only
    split
    · rename_i err hgg
      split
      · rename_i hnf
        exact ⟨[Call.GetGateway _], rfl,
          surfaced_fail client _ [] _ err _ (by simp) (answer_GetGateway_error client _ _ hgg)
            (Or.inl ⟨rfl, hnf, rfl⟩)⟩
      · rename_i hnf
        exact ⟨[Call.GetGateway _], rfl,
          surfaced_fail client _ [] _ err _ (by simp) (answer_GetGateway_error client _ _ hgg)
            (Or.inr (Or.inr ⟨fun h => hnf h.2, _, rfl⟩))⟩
    · rename_i gw hgg
      have hok : ∀ c ∈ [Call.GetGateway
          { CloudType := d.cfg.cloud_type, GwName := d.cfg.gw_name ++ "-hagw" }],
          client.answer c = none := by
        intro c hc
        rw [List.mem_singleton.mp hc]
        exact answer_GetGateway_ok client _ _ hgg
      split
      · exact ⟨[Call.GetGateway _], rfl, surfaced_ok client _ _ _ hok⟩
      · exact surfaces_at client _ _
          (surfaces_callOrFail client _ _ _ _ rfl (fun e _ => Or.inr (Or.inr ⟨by simp, _, rfl⟩))) w _
          [Call.GetGateway _] rfl hok
  · exact surfaces_skip client _ _

theorem updateTail_surfaces (client : Client) (d : ResourceData) :
    (updateTail client d).Surfaces client (updateReports d) := by
  unfold updateTail
  apply surfaces_andThen
  · unfold updateHybrid
    dsimp only
    repeat' first
      | apply surfaces_ite
      | apply surfaces_callOrFail
      | apply surfaces_skip
    all_goals first
      | rfl
      | exact fun e _ => Or.inr (Or.inr ⟨by simp, _, rfl⟩)
  apply surfaces_andThen
  · unfold updateConnected
    dsimp only
    repeat' first
      | apply surfaces_ite
      | apply surfaces_callOrFail
      | apply surfaces_skip
    all_goals first
      | rfl
      | exact fun e _ => Or.inr (Or.inr ⟨by simp, _, rfl⟩)
  apply surfaces_andThen
  · exact updateHaGwSize_surfaces client d
  apply surfaces_andThen
  · unfold updateSnat
    dsimp only
    repeat' first
      | apply surfaces_ite
      | apply surfaces_callOrFail
      | apply surfaces_skip
    all_goals first
      | rfl
      | exact fun e _ => Or.inr (Or.inr ⟨by simp, _, rfl⟩)
  · unfold updateFirenet
    dsimp only
    repeat' first
      | apply surfaces_ite
      | apply surfaces_callOrFail
      | apply surfaces_skip
    all_goals first
      | rfl
      | exact fun e _ => Or.inr (Or.inr ⟨by simp, _, rfl⟩)

theorem updateSteps_surfaces (tagColon : List String → List String) (client : Client)
    (d : ResourceData) :
    (updateSteps tagColon client d).Surfaces client (updateReports d) := by
  rw [updateSteps_eq]
  apply surfaces_andThen
  · exact updateImmutable_surfaces client _ d
  apply surfaces_andThen
  · exact updateGwSize_surfaces client d
  apply surfaces_andThen
  · exact updateHa_surfaces client d
  apply surfaces_andThen
  · exact updateTags_surfaces tagColon client d
  · exact updateTail_surfaces client d

theorem readTags_surfaces (client : Client) (d : ResourceData) (gw gateway : Gateway) :
    (readTags client gw gateway).Surfaces client (updateReports d) := by
  intro w
  unfold readTags
  dsimp only
  split
  · split
    · rename_i err hgt
      exact ⟨[Call.GetTags _], rfl,
        surfaced_fail client _ [] _ err _ (by simp) (answer_GetTags_error client _ _ hgt)
          (Or.inr (Or.inr ⟨by simp, _, rfl⟩))⟩
    · rename_i tagList hgt
      have hok : ∀ c ∈ [Call.GetTags
          { CloudType := 1, ResourceType := "gw", ResourceName := w.d.cfg.gw_name }],
          client.answer c = none := by
        intro c hc
        rw [List.mem_singleton.mp hc]
        exact answer_GetTags_ok client _ _ hgt
      repeat' split
      all_goals exact ⟨[Call.GetTags _], rfl, surfaced_ok client _ _ _ hok⟩
  · exact ⟨[], by simp, surfaced_ok client _ [] _ (by simp)⟩

theorem readHa_surfaces (client : Client) (d : ResourceData) :
    (readHa client).Surfaces client (updateReports d) := by
  intro w
  unfold readHa
  dsimp only
  split
  · rename_i err hgg
    split
    · rename_i hnf
      exact ⟨[Call.GetGateway _], rfl,
        surfaced_fail client _ [] _ err _ (by simp) (answer_GetGateway_error client _ _ hgg)
          (Or.inl ⟨rfl, hnf, rfl⟩)⟩
    · rename_i hnf
      exact ⟨[Call.GetGateway _], rfl,
        surfaced_fail client _ [] _ err _ (by simp) (answer_GetGateway_error client _ _ hgg)
          (Or.inr (Or.inr ⟨fun h => hnf h.2, _, rfl⟩))⟩
  · rename_i haGw hgg
    refine ⟨[Call.GetGateway _], rfl, surfaced_ok client _ _ _ ?_⟩
    intro c hc
    rw [List.mem_singleton.mp hc]
    exact answer_GetGateway_ok client _ _ hgg

theorem readPrimary_surfaces (client : Client) (d : ResourceData) (gateway : Gateway) :
    (readPrimary client gateway).Surfaces client (updateReports d) := by
  intro w
  unfold readPrimary
  dsimp only
  split
  · rename_i err hgg
    split
    · rename_i hnf
      exact ⟨[Call.GetGateway _], rfl,
        surfaced_fail client _ [] _ err _ (by simp) (answer_GetGateway_error client _ _ hgg)
          (Or.inl ⟨rfl, hnf, rfl⟩)⟩
    · rename_i hnf
      exact ⟨[Call.GetGateway _], rfl,
        surfaced_fail client _ [] _ err _ (by simp) (answer_GetGateway_error client _ _ hgg)
          (Or.inr (Or.inr ⟨fun h => hnf h.2, _, rfl⟩))⟩
  · rename_i gw hgg
    have hok₁ : ∀ c ∈ [Call.GetGateway gateway], client.answer c = none := by
      intro c hc
      rw [List.mem_singleton.mp hc]
      exact answer_GetGateway_ok client _ _ hgg
    split
    · rename_i err hgd
      exact ⟨[Call.GetGateway gateway] ++ [Call.GetGatewayDetail gw],
        by simp [World.log, World.setD],
        surfaced_fail client _ _ _ err _ hok₁ (answer_GetGatewayDetail_error client _ _ hgd)
          (Or.inr (Or.inr ⟨by simp, _, rfl⟩))⟩
    · rename_i gwDetail hgd
      refine surfaces_at client _ _ (readTags_surfaces client d gw gateway) w _
        [Call.GetGateway gateway, Call.GetGatewayDetail gw] (by simp [World.log, World.setD]) ?_
      intro c hc
      rcases List.mem_cons.mp hc with h | h
      · rw [h]
        exact answer_GetGateway_ok client _ _ hgg
      · rw [List.mem_singleton.mp h]
        exact answer_GetGatewayDetail_ok client _ _ hgd

/-- Read, seen from its caller: its lookups and the error it returns. -/
theorem read_surfaces (client : Client) (d : ResourceData) (w : World) :
    ∃ l, (Read client w).1.calls = w.calls ++ l ∧
      Surfaced client (updateReports d) l (.ret (Read client w).2) := by
  obtain ⟨l, h₁, S⟩ := surfaces_andThen client _ _ _
    (readPrimary_surfaces client d
      { AccountName := (readImportName w.d).cfg.account_name,
        GwName := (readImportName w.d).cfg.gw_name })
    (readHa_surfaces client d)
    (({ w with reads := w.reads + 1 } : World).setD (readImportName w.d))
  refine ⟨l, ?_, ?_⟩
  · unfold Read
    dsimp only
    split <;> rename_i heq <;> simp only [World.setD] at heq h₁ <;> rw [heq] at h₁ <;> exact h₁
  · unfold Read
    dsimp only
    split <;> rename_i heq <;> simp only [World.setD] at heq S <;> rw [heq] at S
    · exact surfaced_ok client _ _ _ (surfaced_next client _ _ S)
    · exact S

/-- Update, seen from its caller: its calls and the error it returns. -/
theorem update_surfaced (tagColon : List String → List String) (client : Client)
    (d : ResourceData) :
    Surfaced client (updateReports d) (Update tagColon client d).1.calls
      (.ret (Update tagColon client d).2) := by
  obtain ⟨l₁, h₁, S₁⟩ := updateSteps_surfaces tagColon client d { d := d }
  unfold Update
  rcases hst : updateSteps tagColon client d { d := d } with ⟨w, f⟩
  rw [hst] at h₁ S₁
  simp only [List.nil_append] at h₁
  cases f with
  | ret e =>
    dsimp only
    rw [h₁]
    exact S₁
  | next =>
    dsimp only
    obtain ⟨l₂, h₂, S₂⟩ := read_surfaces client d w
    rw [h₂, h₁]
    exact surfaced_append client _ _ _ _ (surfaced_next client _ _ S₁) S₂

/-- C11 as stated fails: when the lookup of the primary gateway in the final Read is
answered not-found, a remote call of Update has failed, it is not the HA lookup, and
Update returns no error. -/
theorem update_failure_surfaced_counterexample :
    Call.GetGateway { AccountName := "acct", GwName := "transit" } ∈
      (Update id goneClient unchangedData).1.calls ∧
    goneClient.answer (Call.GetGateway { AccountName := "acct", GwName := "transit" }) =
      some GoError.ErrNotFound ∧
    (Update id goneClient unchangedData).2 = none := by
  decide

/-- C11 (amended): a remote call of Update that fails is the last call Update issues,
and every call before it succeeded. If the failure is the not-found answer of a gateway
lookup (primary or HA), Update returns no error. Otherwise, unless the failed call is
the enable-HA call that follows the deletion of the HA gateway (old and new `ha_subnet`
both non-empty), Update returns an error whose text is some context followed by the text
of the remote error. -/
theorem update_failure_surfaced (tagColon : List String → List String) (client : Client)
    (d : ResourceData) (c : Call) (e : GoError)
    (hc : c ∈ (Update tagColon client d).1.calls) (he : client.answer c = some e) :
    (∃ pre, (Update tagColon client d).1.calls = pre ++ [c] ∧
      ∀ x ∈ pre, client.answer x = none) ∧
    (c.method = .GetGateway ∧ e = .ErrNotFound → (Update tagColon client d).2 = none) ∧
    (¬ (c.method = .GetGateway ∧ e = .ErrNotFound) →
      ¬ (c.method = .EnableHaTransitVpc ∧ d.prior.ha_subnet ≠ "" ∧ d.cfg.ha_subnet ≠ "") →
      ∃ ctx, (Update tagColon client d).2 = some (ctx ++ e.Error)) := by
  obtain ⟨pre, r, hl, hpre, hf, hR⟩ :=
    surfaced_failed client _ _ _ (update_surfaced tagColon client d) c e hc he
  have hr : (Update tagColon client d).2 = r := by
    injection hf
  refine ⟨⟨pre, hl, hpre⟩, fun h₀ => ?_, fun h₁ h₂ => ?_⟩
  · rcases hR with ⟨-, -, h⟩ | ⟨hm, -, -⟩ | ⟨h, -⟩
    · rw [hr, h]
    · rw [h₀.1] at hm
      cases hm
    · exact absurd h₀ h
  · rcases hR with ⟨hm, hn, -⟩ | h | ⟨-, ctx, h⟩
    · exact absurd ⟨hm, hn⟩ h₁
    · exact absurd h h₂
    · exact ⟨ctx, by rw [hr, h]⟩

/-- Instance of `update_failure_surfaced`: the controller refuses the resize of the
primary gateway, and Update returns its error text after the context. -/
theorem update_failure_surfaced_witness :
    (∃ pre, (Update id resizeFailClient resizeData).1.calls =
        pre ++ [Call.UpdateGateway
          { CloudType := 1, GwName := "transit", GwSize := "t2.large" }] ∧
      ∀ x ∈ pre, resizeFailClient.answer x = none) ∧
    ∃ ctx, (Update id resizeFailClient resizeData).2 =
      some (ctx ++ (GoError.other "quota exceeded").Error) :=
  have h := update_failure_surfaced id resizeFailClient resizeData
    (Call.UpdateGateway { CloudType := 1, GwName := "transit", GwSize := "t2.large" })
    (GoError.other "quota exceeded") (by decide) (by decide)
  ⟨h.1, h.2.2 (by decide) (by decide)⟩

/-- The enable-HA call that follows the deletion of the HA gateway fails: the error
Update returns is built from the deletion's `nil` error, not from the failure. -/
theorem update_reenable_ha_error_text :
    (Update id enableHaFailClient moveHaData).1.calls =
      [Call.DeleteGateway { CloudType := 1, GwName := "transit-hagw" },
       Call.EnableHaTransitVpc { GwName := "transit", HASubnet := "10.0.2.0/24" }] ∧
    enableHaFailClient.answer
        (Call.EnableHaTransitVpc { GwName := "transit", HASubnet := "10.0.2.0/24" }) =
      some (GoError.other "subnet in use") ∧
    (Update id enableHaFailClient moveHaData).2 =
      some "failed to enable HA Aviatrix Transit Gateway: %!s(<nil>)" := by
  decide

end Aviatrix
